import Mathlib

/-!
# RenderGL::StandardMaterial

A shallow embedding of
`dev/Gems/EMotionFX/Code/EMotionFX/Rendering/OpenGL2/Source/StandardMaterial.cpp`.

The C++ object becomes a record that is passed through every member function.
Calls that leave the object (OpenGL, the shader object, the graphics manager)
are recorded, in program order, as a list of `GLCall` values returned next to
the new object state.  A member function that can dereference a null pointer
returns `Option`: `none` stands for the fault.

Floats are carried as rationals; matrices are an arbitrary type `M` with a
product, and the matrix routines of MCore are supplied through `MCoreMath`.
-/

namespace EMotionFX

/-- Modelled from the spec: the colour type of MCore (declared outside this file),
four float channels. -/
structure RGBAColor where
  r : ℚ
  g : ℚ
  b : ℚ
  a : ℚ
deriving DecidableEq

/-- Modelled from the spec: `RGBAColor::operator*(float)` of MCore, declared outside
this file; every channel is scaled. -/
def RGBAColor.scale (c : RGBAColor) (f : ℚ) : RGBAColor :=
  ⟨c.r * f, c.g * f, c.b * f, c.a * f⟩

/-- Modelled from the spec: the layer kinds of `StandardMaterialLayer` that `Init`
dispatches on; every other kind of the enum (declared outside this file) is
`LAYERTYPE_OTHER id`. -/
inductive LayerType
  | LAYERTYPE_DIFFUSE
  | LAYERTYPE_SHINESTRENGTH
  | LAYERTYPE_BUMP
  | LAYERTYPE_NORMALMAP
  | LAYERTYPE_OTHER (id : Nat)
deriving DecidableEq

/-- One texture layer of a standard material asset: `GetType()` and `GetFileName()`. -/
structure StandardMaterialLayer where
  GetType : LayerType
  GetFileName : String
deriving DecidableEq

/-- The asset class `EMotionFX::StandardMaterial`: the scalar properties read by
`Activate` and the ordered layer list read by `Init`. -/
structure StandardMaterial where
  GetDiffuse : RGBAColor
  GetSpecular : RGBAColor
  GetShine : ℚ
  GetShineStrength : ℚ
  layers : List StandardMaterialLayer
deriving DecidableEq

/-- The asset base class `EMotionFX::Material`, as a tagged variant: either an
object whose `GetType()` is `StandardMaterial::TYPE_ID`, or an object of another
family (`typeId` tells the families apart). -/
inductive Material
  | standard (m : StandardMaterial)
  | other (typeId : Nat)
deriving DecidableEq

/-- The result of `(material->GetType() == StandardMaterial::TYPE_ID) ?
static_cast<StandardMaterial*>(material) : nullptr`. -/
def Material.asStandard : Material → Option StandardMaterial
  | .standard m => some m
  | .other _ => none

end EMotionFX

namespace RenderGL

open EMotionFX (RGBAColor)

/-- Modelled from the spec: the attribute enum of `Material.h` (declared outside this
file), slots in the order LIGHTING = 0, SKINNING = 1, SHADOWS = 2, TEXTURING = 3. -/
inductive EAttribute
  | LIGHTING
  | SKINNING
  | SHADOWS
  | TEXTURING
deriving DecidableEq, Fintype

/-- The slots `0 .. NUM_ATTRIBUTES - 1` in increasing order: the range of every
`for (n = 0; n < NUM_ATTRIBUTES; ++n)` loop. -/
def attributeSlots : List EAttribute :=
  [EAttribute.LIGHTING, EAttribute.SKINNING, EAttribute.SHADOWS, EAttribute.TEXTURING]

/-- Number of attribute slots. -/
def NUM_ATTRIBUTES : Nat := attributeSlots.length

/-- Modelled from the spec: `Material::AttributeToString` (defined outside this file),
the define name of each slot. -/
def AttributeToString : EAttribute → String
  | .LIGHTING => "LIGHTING"
  | .SKINNING => "SKINNING"
  | .SHADOWS => "SHADOWS"
  | .TEXTURING => "TEXTURING"

/-- Modelled from the spec: the activation flags of `Material.h` (declared outside
this file). -/
def GLOBAL : Nat := 1

/-- Modelled from the spec: the activation flags of `Material.h` (declared outside
this file). -/
def LOCAL : Nat := 2

/-- A texture object, identified by its handle; pointers to textures are
`Option Texture`, `none` being `nullptr`. -/
structure Texture where
  handle : Nat
deriving DecidableEq

/-- A compiled shader object (class `GLSLShader`, declared outside this file):
its identity and what its method `CheckIfIsDefined` answers for each name. -/
structure GLSLShader where
  handle : Nat
  CheckIfIsDefined : String → Bool

/-- Modelled from the spec: a three-component float vector of AzCore. -/
structure Vector3 where
  x : ℚ
  y : ℚ
  z : ℚ
deriving DecidableEq

/-- The OpenGL enumerants this file passes. -/
inductive GLenum
  | GL_FLOAT
  | GL_DEPTH_TEST
  | GL_LEQUAL
  | GL_TRIANGLES
  | GL_UNSIGNED_INT
deriving DecidableEq

/-- The payload of a `SetUniform` call. -/
inductive UniformValue (M : Type)
  | matrix (m : M)
  | matrixArray (ms : List M)
  | vector3 (v : Vector3)
  | color (c : RGBAColor)
  | float (x : ℚ)
  | texture (t : Option Texture)

/-- The calls the material issues, in program order. -/
inductive GLCall (M : Type)
  | LoadShader (vertexFile pixelFile : String) (defines : List String)
  | ShaderActivate (shader : GLSLShader)
  | ShaderDeactivate (shader : GLSLShader)
  | SetAttribute (shader : GLSLShader) (name : String) (size : Nat) (type : GLenum)
      (stride offset : Nat)
  | SetUniform (shader : GLSLShader) (name : String) (value : UniformValue M)
  | glEnable (cap : GLenum)
  | glDepthFunc (func : GLenum)
  | glColorMask (r g b a : Bool)
  | glDepthMask (flag : Bool)
  | glDrawElements (mode : GLenum) (count : Nat) (type : GLenum) (indices : Nat)

/-- The call is `GraphicsManager::LoadShader`. -/
def GLCall.isLoadShader {M : Type} : GLCall M → Bool
  | .LoadShader _ _ _ => true
  | _ => false

/-- The call is a draw call. -/
def GLCall.isDraw {M : Type} : GLCall M → Bool
  | .glDrawElements _ _ _ _ => true
  | _ => false

/-- The shader object a call is made on, for the calls that are methods of a shader. -/
def GLCall.shader? {M : Type} : GLCall M → Option GLSLShader
  | .ShaderActivate sh => some sh
  | .ShaderDeactivate sh => some sh
  | .SetAttribute sh _ _ _ _ _ => some sh
  | .SetUniform sh _ _ => some sh
  | _ => none

/-- The define lists of the `LoadShader` calls of a trace, in call order. -/
def loadedDefines {M : Type} : List (GLCall M) → List (List String)
  | [] => []
  | .LoadShader _ _ defines :: rest => defines :: loadedDefines rest
  | _ :: rest => loadedDefines rest

/-- The texture cache of the graphics manager. -/
structure TextureCache where
  GetWhiteTexture : Option Texture
  GetDefaultNormalTexture : Option Texture

/-- The camera of the graphics manager. -/
structure Camera (M : Type) where
  GetViewProjMatrix : M
  GetViewMatrix : M
  GetPosition : Vector3

/-- The matrix and vector routines of MCore and AzCore used by this file; they are
defined outside it. -/
structure MCoreMath (M : Type) where
  RotationMatrixZ : ℚ → M
  RotationMatrixX : ℚ → M
  DegreesToRadians : ℚ → ℚ
  transform : Vector3 → M → Vector3
  Normalize : Vector3 → Vector3
  GetUp : M → Vector3
  Inverse : M → M
  Transpose : M → M

/-- Sizes and member offsets of the two vertex structures (declared outside this
file). -/
structure VertexLayout where
  sizeofSkinnedVertex : Nat
  sizeofStandardVertex : Nat
  offsetOfNormal : Nat
  offsetOfTangent : Nat
  offsetOfUV : Nat
  offsetOfWeights : Nat
  offsetOfBoneIndices : Nat

/-- Everything `GetGraphicsManager()` and `mActor` give access to. -/
structure GraphicsManager (M : Type) where
  GetTextureCache : TextureCache
  GetCamera : Camera M
  math : MCoreMath M
  layout : VertexLayout
  GetMainLightAngleA : ℚ
  GetMainLightAngleB : ℚ
  GetMainLightIntensity : ℚ
  GetSpecularIntensity : ℚ
  GetRimAngle : ℚ
  GetRimIntensity : ℚ
  GetRimWidth : ℚ
  GetRimColor : RGBAColor
  GetBloomThreshold : ℚ
  GetDOFFocalDistance : ℚ
  GetDOFNear : ℚ
  GetDOFFar : ℚ
  actorSkyColor : RGBAColor
  actorGroundColor : RGBAColor

/-- The outcome of one call of `GraphicsManager::LoadShader(vertexFile, pixelFile,
defines)`: the new shader, or `none` for `nullptr`. -/
abbrev ShaderLoader := String → String → List String → Option GLSLShader

/-- The outcome of `Material::LoadTexture(fileName)` for the layer at a given index. -/
abbrev TextureLoader := Nat → String → Option Texture

/-- The object state of `RenderGL::StandardMaterial`. -/
structure StandardMaterial (M : Type) where
  mMaterial : Option EMotionFX.Material
  mActiveShader : Option GLSLShader
  mAttributesUpdated : Bool
  mAttributes : EAttribute → Bool
  mDiffuseMap : Option Texture
  mSpecularMap : Option Texture
  mNormalMap : Option Texture
  mShaders : List (Option GLSLShader)
  mBoneMatrices : Nat → M

/-- The pose data `Render` reads from the actor instance. -/
structure ActorInstance (M : Type) where
  globalMatrices : Nat → M
  invBindPoseMatrices : Nat → M

/-- A render primitive. -/
structure Primitive where
  mNodeIndex : Nat
  mBoneNodeIndices : List Nat
  mNumTriangles : Nat
  mIndexOffset : Nat

section Code

variable {M : Type}

/-- `StandardMaterial::SetAttribute`. -/
def SetAttribute (self : StandardMaterial M) (index : EAttribute) (enabled : Bool) :
    StandardMaterial M :=
  if self.mAttributes index != enabled then
    { self with
      mAttributes := Function.update self.mAttributes index enabled
      mAttributesUpdated := true }
  else
    self

/-- The inner loop of `UpdateShader` over the slots still to visit: the final value of
`match`, with the two `break`s. -/
def checkDefines (mAttributes : EAttribute → Bool) (shader : GLSLShader) :
    List EAttribute → Bool
  | [] => true
  | n :: rest =>
    if mAttributes n then
      if shader.CheckIfIsDefined (AttributeToString n) == false then false
      else checkDefines mAttributes shader rest
    else
      if shader.CheckIfIsDefined (AttributeToString n) then false
      else checkDefines mAttributes shader rest

/-- The outer loop of `UpdateShader` over the cache entries still to visit: the value
of `mActiveShader` when the loop ends. -/
def findShader (mAttributes : EAttribute → Bool) : List (Option GLSLShader) → Option GLSLShader
  | [] => none
  | none :: rest => findShader mAttributes rest
  | some shader :: rest =>
    if checkDefines mAttributes shader attributeSlots then some shader
    else findShader mAttributes rest

/-- The define-collecting loop of `UpdateShader` over the slots still to visit. -/
def collectDefines (mAttributes : EAttribute → Bool) : List EAttribute → List String
  | [] => []
  | n :: rest =>
    if mAttributes n then AttributeToString n :: collectDefines mAttributes rest
    else collectDefines mAttributes rest

/-- `StandardMaterial::UpdateShader`. -/
def UpdateShader (LoadShader : ShaderLoader) (self : StandardMaterial M) :
    StandardMaterial M × List (GLCall M) :=
  if self.mAttributesUpdated == false then
    (self, [])
  else
    match findShader self.mAttributes self.mShaders with
    | some shader =>
      ({ self with mActiveShader := some shader, mAttributesUpdated := false }, [])
    | none =>
      let defines := collectDefines self.mAttributes attributeSlots
      let loaded := LoadShader "StandardMaterial_VS.glsl" "StandardMaterial_PS.glsl" defines
      ({ self with
          mActiveShader := loaded
          mShaders := self.mShaders ++ [loaded]
          mAttributesUpdated := false },
        [GLCall.LoadShader "StandardMaterial_VS.glsl" "StandardMaterial_PS.glsl" defines])

/-- The constructor `StandardMaterial::StandardMaterial`.  The constructor does not
initialise `mAttributes` and `mBoneMatrices` before the four `SetAttribute` calls read
the former, so their initial contents are arguments. -/
def StandardMaterial.construct (gfx : GraphicsManager M) (uninitAttributes : EAttribute → Bool)
    (uninitBoneMatrices : Nat → M) : StandardMaterial M :=
  let self : StandardMaterial M :=
    { mMaterial := none
      mActiveShader := none
      mAttributesUpdated := true
      mAttributes := uninitAttributes
      mDiffuseMap := gfx.GetTextureCache.GetWhiteTexture
      mSpecularMap := gfx.GetTextureCache.GetWhiteTexture
      mNormalMap := gfx.GetTextureCache.GetDefaultNormalTexture
      mShaders := []
      mBoneMatrices := uninitBoneMatrices }
  let self := SetAttribute self EAttribute.LIGHTING true
  let self := SetAttribute self EAttribute.SKINNING false
  let self := SetAttribute self EAttribute.SHADOWS false
  SetAttribute self EAttribute.TEXTURING true

/-- The `if (flags & GLOBAL)` block of `Activate`, entered with a non-null active
shader. -/
def activateGlobal [Mul M] (gfx : GraphicsManager M) (self : StandardMaterial M)
    (shader : GLSLShader) : List (GLCall M) :=
  let stride : Nat :=
    (if self.mAttributes EAttribute.SKINNING then gfx.layout.sizeofSkinnedVertex
      else gfx.layout.sizeofStandardVertex) % 2 ^ 32
  let camera := gfx.GetCamera
  let mainLightDir : Vector3 := ⟨0, -1, 0⟩
  let mainLightDir := gfx.math.transform mainLightDir
    (gfx.math.RotationMatrixZ (gfx.math.DegreesToRadians gfx.GetMainLightAngleA)
      * gfx.math.RotationMatrixX (gfx.math.DegreesToRadians gfx.GetMainLightAngleB))
  let mainLightDir := gfx.math.Normalize mainLightDir
  let rimLightDir := gfx.math.GetUp camera.GetViewMatrix
  let rimLightDir := gfx.math.transform rimLightDir
    (gfx.math.RotationMatrixZ (gfx.math.DegreesToRadians gfx.GetRimAngle))
  let rimLightDir := gfx.math.Normalize rimLightDir
  [ GLCall.ShaderActivate shader,
    GLCall.SetAttribute shader "inPosition" 3 GLenum.GL_FLOAT stride 0,
    GLCall.SetAttribute shader "inNormal" 3 GLenum.GL_FLOAT stride gfx.layout.offsetOfNormal,
    GLCall.SetAttribute shader "inTangent" 4 GLenum.GL_FLOAT stride gfx.layout.offsetOfTangent,
    GLCall.SetAttribute shader "inUV" 2 GLenum.GL_FLOAT stride gfx.layout.offsetOfUV ]
  ++ (if self.mAttributes EAttribute.SKINNING then
        [ GLCall.SetAttribute shader "inWeights" 4 GLenum.GL_FLOAT stride
            gfx.layout.offsetOfWeights,
          GLCall.SetAttribute shader "inIndices" 4 GLenum.GL_FLOAT stride
            gfx.layout.offsetOfBoneIndices ]
      else [])
  ++ [ GLCall.SetUniform shader "matViewProj" (UniformValue.matrix camera.GetViewProjMatrix),
       GLCall.SetUniform shader "matView" (UniformValue.matrix camera.GetViewMatrix),
       GLCall.SetUniform shader "mainLightDir" (UniformValue.vector3 mainLightDir),
       GLCall.SetUniform shader "skyColor"
         (UniformValue.color (gfx.actorSkyColor.scale gfx.GetMainLightIntensity)),
       GLCall.SetUniform shader "groundColor" (UniformValue.color gfx.actorGroundColor),
       GLCall.SetUniform shader "eyePoint" (UniformValue.vector3 camera.GetPosition),
       GLCall.SetUniform shader "rimLightDir" (UniformValue.vector3 rimLightDir),
       GLCall.SetUniform shader "rimLightFactor" (UniformValue.float gfx.GetRimIntensity),
       GLCall.SetUniform shader "rimWidth" (UniformValue.float gfx.GetRimWidth),
       GLCall.SetUniform shader "rimLightColor" (UniformValue.color gfx.GetRimColor) ]

/-- The colour passed as `diffuseColor` by the first `if` of the `LOCAL` block of
`Activate`; `none` is the dereference of a null `stdMaterial` in
`stdMaterial->GetDiffuse()`. -/
def localDiffuseColor (gfx : GraphicsManager M) (self : StandardMaterial M)
    (stdMaterial : Option EMotionFX.StandardMaterial) : Option RGBAColor :=
  if self.mDiffuseMap == none
      || (self.mDiffuseMap == gfx.GetTextureCache.GetWhiteTexture && stdMaterial.isSome) then
    match stdMaterial with
    | none => none
    | some std => some std.GetDiffuse
  else
    some ⟨1, 1, 1, 1⟩

/-- The `if (stdMaterial)` statement of the `LOCAL` block of `Activate`. -/
def localSpecular (gfx : GraphicsManager M) (shader : GLSLShader)
    (stdMaterial : Option EMotionFX.StandardMaterial) : List (GLCall M) :=
  match stdMaterial with
  | some std =>
    let specularColor := std.GetSpecular.scale
      (std.GetShineStrength * gfx.GetMainLightIntensity * gfx.GetSpecularIntensity)
    [ GLCall.SetUniform shader "specularPower" (UniformValue.float std.GetShine),
      GLCall.SetUniform shader "lightSpecular" (UniformValue.color specularColor) ]
  | none =>
    let specularColor := (⟨1, 1, 1, 1⟩ : RGBAColor).scale
      (1 * gfx.GetMainLightIntensity * gfx.GetSpecularIntensity)
    [ GLCall.SetUniform shader "specularPower" (UniformValue.float 25),
      GLCall.SetUniform shader "lightSpecular" (UniformValue.color specularColor) ]

/-- The `if (flags & LOCAL)` block of `Activate`, entered with a non-null active
shader.  `none` is a null dereference: of `mMaterial` in `mMaterial->GetType()`, or of
`stdMaterial` in `stdMaterial->GetDiffuse()`. -/
def activateLocal (gfx : GraphicsManager M) (self : StandardMaterial M)
    (shader : GLSLShader) : Option (List (GLCall M)) :=
  match self.mMaterial with
  | none => none
  | some material =>
    let stdMaterial := material.asStandard
    match localDiffuseColor gfx self stdMaterial with
    | none => none
    | some diffuseColor =>
      some ([GLCall.SetUniform shader "diffuseColor" (UniformValue.color diffuseColor)]
        ++ localSpecular gfx shader stdMaterial
        ++ [ GLCall.SetUniform shader "normalMap" (UniformValue.texture self.mNormalMap),
             GLCall.SetUniform shader "diffuseMap" (UniformValue.texture self.mDiffuseMap),
             GLCall.SetUniform shader "specularMap" (UniformValue.texture self.mSpecularMap) ])

/-- The trailing block of `Activate` ("update the advanced rendering settings"). -/
def activateAdvanced (gfx : GraphicsManager M) (shader : GLSLShader) : List (GLCall M) :=
  [ GLCall.SetUniform shader "glowThreshold" (UniformValue.float gfx.GetBloomThreshold),
    GLCall.SetUniform shader "focalPlaneDepth" (UniformValue.float gfx.GetDOFFocalDistance),
    GLCall.SetUniform shader "nearPlaneDepth" (UniformValue.float gfx.GetDOFNear),
    GLCall.SetUniform shader "farPlaneDepth" (UniformValue.float gfx.GetDOFFar),
    GLCall.SetUniform shader "blurCutoff" (UniformValue.float 1) ]

/-- `StandardMaterial::Activate`. -/
def Activate [Mul M] (gfx : GraphicsManager M) (LoadShader : ShaderLoader)
    (self : StandardMaterial M) (flags : Nat) : Option (StandardMaterial M × List (GLCall M)) :=
  let updated := UpdateShader LoadShader self
  let self := updated.1
  match self.mActiveShader with
  | none => some (self, updated.2)
  | some shader =>
    let globalCalls := if flags &&& GLOBAL ≠ 0 then activateGlobal gfx self shader else []
    let localCalls := if flags &&& LOCAL ≠ 0 then activateLocal gfx self shader else some []
    match localCalls with
    | none => none
    | some localCalls =>
      some (self, updated.2 ++ globalCalls ++ localCalls ++ activateAdvanced gfx shader)

/-- `StandardMaterial::Deactivate`. -/
def Deactivate (self : StandardMaterial M) : StandardMaterial M × List (GLCall M) :=
  match self.mActiveShader with
  | none => (self, [])
  | some shader => (self, [GLCall.ShaderDeactivate shader])

/-- The body of the layer loop of `Init` for the layer at index `i`. -/
def initLayer (gfx : GraphicsManager M) (LoadTexture : TextureLoader) (self : StandardMaterial M)
    (i : Nat) (layer : EMotionFX.StandardMaterialLayer) : StandardMaterial M :=
  match layer.GetType with
  | .LAYERTYPE_DIFFUSE =>
    let self := { self with mDiffuseMap := LoadTexture i layer.GetFileName }
    if self.mDiffuseMap == none then
      { self with mDiffuseMap := gfx.GetTextureCache.GetWhiteTexture }
    else self
  | .LAYERTYPE_SHINESTRENGTH =>
    let self := { self with mSpecularMap := LoadTexture i layer.GetFileName }
    if self.mSpecularMap == none then
      { self with mSpecularMap := gfx.GetTextureCache.GetWhiteTexture }
    else self
  | .LAYERTYPE_BUMP =>
    let self := { self with mNormalMap := LoadTexture i layer.GetFileName }
    if self.mNormalMap == none then
      { self with mNormalMap := gfx.GetTextureCache.GetDefaultNormalTexture }
    else self
  | .LAYERTYPE_NORMALMAP =>
    let self := { self with mNormalMap := LoadTexture i layer.GetFileName }
    if self.mNormalMap == none then
      { self with mNormalMap := gfx.GetTextureCache.GetDefaultNormalTexture }
    else self
  | .LAYERTYPE_OTHER _ => self

/-- The layer loop of `Init` from index `i` on, over the layers still to visit. -/
def initLayers (gfx : GraphicsManager M) (LoadTexture : TextureLoader) :
    List EMotionFX.StandardMaterialLayer → Nat → StandardMaterial M → StandardMaterial M
  | [], _, self => self
  | layer :: rest, i, self =>
    initLayers gfx LoadTexture rest (i + 1) (initLayer gfx LoadTexture self i layer)

/-- `StandardMaterial::Init`: the returned flag and the new object state. -/
def Init (gfx : GraphicsManager M) (LoadTexture : TextureLoader) (self : StandardMaterial M)
    (material : EMotionFX.Material) : Bool × StandardMaterial M :=
  let self := { self with mMaterial := some material }
  match material with
  | .standard stdMaterial => (true, initLayers gfx LoadTexture stdMaterial.layers 0 self)
  | .other _ => (true, self)

/-- Modelled from the spec: `MCore::Matrix::MultMatrix4x3` (defined outside this file),
in-place multiplication by the argument on the right. -/
def MultMatrix4x3 [Mul M] (self right : M) : M := self * right

/-- The bone loop of `Render` from index `i` on, over the bone node indices still to
visit: the contents of `mBoneMatrices` when the loop ends. -/
def skinLoop [Mul M] (globalMatrices invBindPoseMatrices : Nat → M) (invNodeTM : M) :
    List Nat → Nat → (Nat → M) → (Nat → M)
  | [], _, mBoneMatrices => mBoneMatrices
  | nodeNr :: rest, i, mBoneMatrices =>
    let entry := invBindPoseMatrices nodeNr
    let entry := MultMatrix4x3 entry (globalMatrices nodeNr)
    let entry := MultMatrix4x3 entry invNodeTM
    skinLoop globalMatrices invBindPoseMatrices invNodeTM rest (i + 1)
      (Function.update mBoneMatrices i entry)

/-- The first `count` elements of an array: what `SetUniform(name, array, count)`
uploads. -/
def arrayPrefix (array : Nat → M) (count : Nat) : List M :=
  (List.range count).map array

/-- `StandardMaterial::Render`. -/
def Render [Mul M] (gfx : GraphicsManager M) (self : StandardMaterial M)
    (actorInstance : ActorInstance M) (primitive : Primitive) :
    StandardMaterial M × List (GLCall M) :=
  match self.mActiveShader with
  | none => (self, [])
  | some shader =>
    let depthCalls : List (GLCall M) :=
      [ GLCall.glEnable GLenum.GL_DEPTH_TEST,
        GLCall.glDepthFunc GLenum.GL_LEQUAL,
        GLCall.glColorMask true true true true,
        GLCall.glDepthMask true ]
    let skinned : StandardMaterial M × List (GLCall M) :=
      if self.mAttributes EAttribute.SKINNING then
        let globalMatrices := actorInstance.globalMatrices
        let invBindPoseMatrices := actorInstance.invBindPoseMatrices
        let invNodeTM := gfx.math.Inverse (globalMatrices primitive.mNodeIndex)
        let numBones := primitive.mBoneNodeIndices.length
        let bones := skinLoop globalMatrices invBindPoseMatrices invNodeTM
          primitive.mBoneNodeIndices 0 self.mBoneMatrices
        ({ self with mBoneMatrices := bones },
          [GLCall.SetUniform shader "matBones"
            (UniformValue.matrixArray (arrayPrefix bones numBones))])
      else (self, [])
    let camera := gfx.GetCamera
    let global := actorInstance.globalMatrices primitive.mNodeIndex
    let globalView := actorInstance.globalMatrices primitive.mNodeIndex * camera.GetViewMatrix
    let globalViewProj := global * camera.GetViewProjMatrix
    let globalIT := gfx.math.Transpose (gfx.math.Inverse global)
    (skinned.1,
      depthCalls ++ skinned.2
      ++ [ GLCall.SetUniform shader "matWorld" (UniformValue.matrix global),
           GLCall.SetUniform shader "matWorldIT" (UniformValue.matrix globalIT),
           GLCall.SetUniform shader "matWorldView" (UniformValue.matrix globalView),
           GLCall.SetUniform shader "matWorldViewProj" (UniformValue.matrix globalViewProj),
           GLCall.glDrawElements GLenum.GL_TRIANGLES (primitive.mNumTriangles * 3 % 2 ^ 32)
             GLenum.GL_UNSIGNED_INT (primitive.mIndexOffset * 4 % 2 ^ 64) ])

/-- One call of a public member function on a material object. -/
inductive Call (M : Type)
  | Init (material : EMotionFX.Material) (LoadTexture : TextureLoader)
  | SetAttribute (index : EAttribute) (enabled : Bool)
  | Activate (flags : Nat)
  | Render (actorInstance : ActorInstance M) (primitive : Primitive)
  | Deactivate

/-- The effect of one call; `LoadShader` answers the `LoadShader` request the call may
make. -/
def step [Mul M] (gfx : GraphicsManager M) (LoadShader : ShaderLoader)
    (self : StandardMaterial M) : Call M → Option (StandardMaterial M × List (GLCall M))
  | .Init material LoadTexture => some ((Init gfx LoadTexture self material).2, [])
  | .SetAttribute index enabled => some (SetAttribute self index enabled, [])
  | .Activate flags => Activate gfx LoadShader self flags
  | .Render actorInstance primitive => some (Render gfx self actorInstance primitive)
  | .Deactivate => some (Deactivate self)

/-- A sequence of calls on one object.  `LoadShader k` answers the request made after
`k` earlier `LoadShader` requests of the run; `trace` holds the calls issued so far. -/
def run [Mul M] (gfx : GraphicsManager M) (LoadShader : Nat → ShaderLoader) :
    List (Call M) → StandardMaterial M → List (GLCall M) →
      Option (StandardMaterial M × List (GLCall M))
  | [], self, trace => some (self, trace)
  | call :: rest, self, trace =>
    match step gfx (LoadShader (loadedDefines trace).length) self call with
    | none => none
    | some (self, calls) => run gfx LoadShader rest self (trace ++ calls)

/-- A shader agrees with an attribute set on every slot: the define of the slot is
reported as defined exactly when the attribute is `true`. -/
def Agrees (mAttributes : EAttribute → Bool) (shader : GLSLShader) : Prop :=
  ∀ n : EAttribute, shader.CheckIfIsDefined (AttributeToString n) = mAttributes n

/-- The loader hands out, on every request, a shader that reports as defined exactly
the defines it was compiled with. -/
def ExactLoader (LoadShader : Nat → ShaderLoader) : Prop :=
  ∀ (k : Nat) (vertexFile pixelFile : String) (defines : List String),
    ∃ shader, LoadShader k vertexFile pixelFile defines = some shader
      ∧ ∀ name, shader.CheckIfIsDefined name = decide (name ∈ defines)

/-- Every define list compiled so far is held by the cache: for each `LoadShader`
request of the trace, `mShaders` contains a non-null shader that reports as defined
exactly the names of that request. -/
def CompiledAreCached (self : StandardMaterial M) (trace : List (GLCall M)) : Prop :=
  ∀ defines ∈ loadedDefines trace, ∃ shader, some shader ∈ self.mShaders
    ∧ ∀ name, shader.CheckIfIsDefined name = decide (name ∈ defines)

/-- The call changes no attribute of a material whose attributes are `mAttributes`: it
is `Activate`, `Render`, `Deactivate`, or a `SetAttribute` that writes the value the
slot already has. -/
def Call.leavesAttributes (mAttributes : EAttribute → Bool) : Call M → Prop
  | .Init _ _ => False
  | .SetAttribute index enabled => mAttributes index = enabled
  | .Activate _ => True
  | .Render _ _ => True
  | .Deactivate => True

/-- When the dirty flag is clear, the active shader (if there is one) agrees with the
attributes on every slot. -/
def ResolvedWhenClean (self : StandardMaterial M) : Prop :=
  self.mAttributesUpdated = false →
    ∀ shader, self.mActiveShader = some shader → Agrees self.mAttributes shader

/-- The uniform writes of a trace under one name, in call order: the shader written to
and the value. -/
def uniformWrites (name : String) : List (GLCall M) → List (GLSLShader × UniformValue M)
  | [] => []
  | .SetUniform shader written value :: rest =>
    if written = name then (shader, value) :: uniformWrites name rest
    else uniformWrites name rest
  | _ :: rest => uniformWrites name rest

/-- The texture a binding ends up with when the load returned `loaded`: the loaded
texture, or `fallback` when the load returned null. -/
def loadOr (fallback loaded : Option Texture) : Option Texture :=
  match loaded with
  | some texture => some texture
  | none => fallback

/-- The binding `bound` is the load result of the last layer of the given kind, or
`fallback` if that load returned null or no layer of the kind exists. -/
def BoundFromLayers (isKind : EMotionFX.LayerType → Prop) (fallback : Option Texture)
    (LoadTexture : TextureLoader) (layers : List EMotionFX.StandardMaterialLayer)
    (bound : Option Texture) : Prop :=
  ((∀ layer ∈ layers, ¬ isKind layer.GetType) → bound = fallback)
    ∧ ∀ (i : Nat) (layer : EMotionFX.StandardMaterialLayer),
        layers[i]? = some layer → isKind layer.GetType →
        (∀ (j : Nat) (later : EMotionFX.StandardMaterialLayer),
          i < j → layers[j]? = some later → ¬ isKind later.GetType) →
        bound = loadOr fallback (LoadTexture i layer.GetFileName)

/-- The policy the spec gives for the `diffuseColor` uniform: the diffuse colour of the
material asset when the diffuse map is the fallback white texture and the asset is of
the standard family, opaque white in every other case. -/
def diffuseColorPolicy (gfx : GraphicsManager M) (self : StandardMaterial M) : RGBAColor :=
  match self.mMaterial with
  | some (EMotionFX.Material.standard std) =>
    if self.mDiffuseMap = gfx.GetTextureCache.GetWhiteTexture then std.GetDiffuse
    else ⟨1, 1, 1, 1⟩
  | _ => ⟨1, 1, 1, 1⟩

/-- The object has been initialised: `mMaterial` and `mDiffuseMap` are non-null. -/
def Initialised (self : StandardMaterial M) : Prop :=
  self.mMaterial ≠ none ∧ self.mDiffuseMap ≠ none

end Code

section Demo

/-- A graphics manager over integer "matrices", used to run the code on concrete
inputs. -/
def demoGfx : GraphicsManager ℤ :=
  { GetTextureCache := ⟨some ⟨1⟩, some ⟨2⟩⟩
    GetCamera := ⟨1, 1, ⟨0, 0, 0⟩⟩
    math := ⟨fun _ => 1, fun _ => 1, fun x => x, fun v _ => v, fun v => v,
      fun _ => ⟨0, 1, 0⟩, fun m => m, fun m => m⟩
    layout := ⟨80, 48, 12, 24, 40, 48, 64⟩
    GetMainLightAngleA := 0
    GetMainLightAngleB := 0
    GetMainLightIntensity := 1
    GetSpecularIntensity := 1
    GetRimAngle := 0
    GetRimIntensity := 1
    GetRimWidth := 1
    GetRimColor := ⟨1, 1, 1, 1⟩
    GetBloomThreshold := 0
    GetDOFFocalDistance := 0
    GetDOFNear := 0
    GetDOFFar := 0
    actorSkyColor := ⟨1, 1, 1, 1⟩
    actorGroundColor := ⟨0, 0, 0, 1⟩ }

/-- A loader that always succeeds with a shader defining exactly the requested names. -/
def demoLoader : Nat → ShaderLoader :=
  fun k _ _ defines => some ⟨k, fun name => decide (name ∈ defines)⟩

/-- A loader that always fails. -/
def failingLoader : ShaderLoader := fun _ _ _ => none

/-- A freshly constructed material. -/
def demoFresh : StandardMaterial ℤ :=
  StandardMaterial.construct demoGfx (fun _ => false) (fun _ => 0)

/-- A shader compiled with LIGHTING and TEXTURING. -/
def demoShaderLT : GLSLShader :=
  ⟨7, fun name => decide (name ∈ ["LIGHTING", "TEXTURING"])⟩

/-- A shader compiled with LIGHTING only: a subset of the defines of `demoShaderLT`. -/
def demoShaderL : GLSLShader :=
  ⟨8, fun name => decide (name ∈ ["LIGHTING"])⟩

/-- A standard material asset with one diffuse layer and one layer of another kind. -/
def demoAsset : EMotionFX.Material :=
  EMotionFX.Material.standard
    { GetDiffuse := ⟨1 / 2, 1 / 4, 0, 1⟩
      GetSpecular := ⟨1, 1, 1, 1⟩
      GetShine := 10
      GetShineStrength := 1
      layers := [⟨EMotionFX.LayerType.LAYERTYPE_DIFFUSE, "skin.png"⟩,
        ⟨EMotionFX.LayerType.LAYERTYPE_OTHER 9, "mask.png"⟩] }

/-- A texture loader that fails on every file. -/
def demoNoTextures : TextureLoader := fun _ _ => none

/-- Initialise, activate twice, switch skinning on, activate, switch it off again,
activate. -/
def demoCalls : List (Call ℤ) :=
  [ Call.Init demoAsset demoNoTextures,
    Call.Activate 3,
    Call.Activate 3,
    Call.SetAttribute EAttribute.SKINNING true,
    Call.Activate 1,
    Call.SetAttribute EAttribute.SKINNING false,
    Call.Activate 3 ]

/-- Pose data with every matrix equal to one. -/
def demoActor : ActorInstance ℤ := ⟨fun _ => 1, fun _ => 1⟩

/-- A primitive of two triangles influenced by three bones. -/
def demoPrimitive : Primitive := ⟨0, [4, 2, 7], 2, 0⟩

/-- The fresh material with skinning switched on and its shader resolved. -/
def demoSkinned : StandardMaterial ℤ :=
  (UpdateShader (demoLoader 0) (SetAttribute demoFresh EAttribute.SKINNING true)).1

/-- A fresh material whose cache holds a null entry, the subset variant and the exact
variant, in this order. -/
def demoCached : StandardMaterial ℤ :=
  { demoFresh with mShaders := [none, some demoShaderL, some demoShaderLT] }

end Demo

section Lemmas

variable {M : Type}

theorem AttributeToString_injective : Function.Injective AttributeToString := by
  intro a b h
  cases a <;> cases b <;> first | rfl | (exfalso; revert h; decide)

theorem mem_attributeSlots (n : EAttribute) : n ∈ attributeSlots := by
  cases n <;> simp [attributeSlots]

theorem attributeSlots_nodup : attributeSlots.Nodup := by
  decide

theorem checkDefines_iff (mAttributes : EAttribute → Bool) (shader : GLSLShader)
    (slots : List EAttribute) :
    checkDefines mAttributes shader slots = true
      ↔ ∀ n ∈ slots, shader.CheckIfIsDefined (AttributeToString n) = mAttributes n := by
  induction slots with
  | nil => simp [checkDefines]
  | cons n rest ih =>
    simp only [checkDefines, List.mem_cons, forall_eq_or_imp]
    cases hA : mAttributes n <;> cases hC : shader.CheckIfIsDefined (AttributeToString n)
      <;> simp [ih]

theorem checkDefines_slots_iff (mAttributes : EAttribute → Bool) (shader : GLSLShader) :
    checkDefines mAttributes shader attributeSlots = true ↔ Agrees mAttributes shader := by
  rw [checkDefines_iff]
  exact ⟨fun h n => h n (mem_attributeSlots n), fun h n _ => h n⟩

theorem findShader_agrees (mAttributes : EAttribute → Bool) (shaders : List (Option GLSLShader))
    (shader : GLSLShader) (h : findShader mAttributes shaders = some shader) :
    Agrees mAttributes shader ∧ some shader ∈ shaders := by
  induction shaders with
  | nil => simp [findShader] at h
  | cons entry rest ih =>
    cases entry with
    | none =>
      simp only [findShader] at h
      exact ⟨(ih h).1, List.mem_cons_of_mem _ (ih h).2⟩
    | some sh =>
      simp only [findShader] at h
      split at h
      · rename_i hc
        cases h
        exact ⟨(checkDefines_slots_iff _ _).1 hc, List.mem_cons_self _ _⟩
      · exact ⟨(ih h).1, List.mem_cons_of_mem _ (ih h).2⟩

theorem findShader_eq_none_iff (mAttributes : EAttribute → Bool)
    (shaders : List (Option GLSLShader)) :
    findShader mAttributes shaders = none
      ↔ ∀ shader, some shader ∈ shaders → ¬ Agrees mAttributes shader := by
  induction shaders with
  | nil => simp [findShader]
  | cons entry rest ih =>
    cases entry with
    | none => simp [findShader, ih]
    | some sh =>
      simp only [findShader, List.mem_cons, Option.some.injEq]
      by_cases hc : checkDefines mAttributes sh attributeSlots = true
      · simp only [hc, if_true]
        constructor
        · intro h; cases h
        · intro h
          exact absurd ((checkDefines_slots_iff _ _).1 hc) (h sh (Or.inl rfl))
      · have hf : checkDefines mAttributes sh attributeSlots = false := by
          simpa using hc
        rw [hf]
        simp only [Bool.false_eq_true, if_false, ih]
        constructor
        · intro h shader hmem
          rcases hmem with rfl | hmem
          · exact fun ha => hc ((checkDefines_slots_iff _ _).2 ha)
          · exact h shader hmem
        · intro h shader hmem
          exact h shader (Or.inr hmem)

theorem findShader_first (mAttributes : EAttribute → Bool) (shaders : List (Option GLSLShader))
    (i : Nat) (shader : GLSLShader) (hentry : shaders[i]? = some (some shader))
    (hagree : Agrees mAttributes shader)
    (hfirst : ∀ j < i, ∀ other, shaders[j]? = some (some other) → ¬ Agrees mAttributes other) :
    findShader mAttributes shaders = some shader := by
  induction shaders generalizing i with
  | nil => simp at hentry
  | cons entry rest ih =>
    cases i with
    | zero =>
      simp only [List.getElem?_cons_zero, Option.some.injEq] at hentry
      subst hentry
      simp [findShader, (checkDefines_slots_iff _ _).2 hagree]
    | succ i =>
      simp only [List.getElem?_cons_succ] at hentry
      have hrest : findShader mAttributes rest = some shader := by
        apply ih i hentry
        intro j hj other hother
        exact hfirst (j + 1) (by omega) other (by simpa using hother)
      cases entry with
      | none => simpa [findShader] using hrest
      | some sh =>
        have hno : ¬ Agrees mAttributes sh := hfirst 0 (by omega) sh (by simp)
        have hc : ¬ checkDefines mAttributes sh attributeSlots = true :=
          fun hc => hno ((checkDefines_slots_iff _ _).1 hc)
        simp [findShader, hc, hrest]

theorem findShader_append_none (mAttributes : EAttribute → Bool)
    (shaders : List (Option GLSLShader)) :
    findShader mAttributes (shaders ++ [none]) = findShader mAttributes shaders := by
  induction shaders with
  | nil => simp [findShader]
  | cons entry rest ih =>
    cases entry with
    | none => simpa [findShader] using ih
    | some sh =>
      simp only [List.cons_append, findShader, List.append_eq, ih]

theorem collectDefines_eq (mAttributes : EAttribute → Bool) (slots : List EAttribute) :
    collectDefines mAttributes slots
      = (slots.filter (fun n => mAttributes n)).map AttributeToString := by
  induction slots with
  | nil => rfl
  | cons n rest ih =>
    cases hA : mAttributes n <;> simp [collectDefines, hA, ih]

theorem mem_collectDefines (mAttributes : EAttribute → Bool) (n : EAttribute) :
    AttributeToString n ∈ collectDefines mAttributes attributeSlots ↔ mAttributes n = true := by
  rw [collectDefines_eq]
  simp only [List.mem_map, List.mem_filter]
  constructor
  · rintro ⟨m, ⟨_, hm⟩, heq⟩
    rw [← AttributeToString_injective heq]
    exact hm
  · intro h
    exact ⟨n, ⟨mem_attributeSlots n, h⟩, rfl⟩

theorem collectDefines_nodup (mAttributes : EAttribute → Bool) :
    (collectDefines mAttributes attributeSlots).Nodup := by
  rw [collectDefines_eq]
  exact (attributeSlots_nodup.filter _).map AttributeToString_injective

theorem isLoadShader_of_shader (call : GLCall M) (shader : GLSLShader)
    (h : call.shader? = some shader) : call.isLoadShader = false := by
  cases call <;> first | rfl | (simp [GLCall.shader?] at h)

theorem activateGlobal_shader [Mul M] (gfx : GraphicsManager M) (self : StandardMaterial M)
    (shader : GLSLShader) :
    ∀ call ∈ activateGlobal gfx self shader, call.shader? = some shader := by
  unfold activateGlobal
  cases self.mAttributes EAttribute.SKINNING <;> simp [GLCall.shader?]

theorem activateAdvanced_shader (gfx : GraphicsManager M) (shader : GLSLShader) :
    ∀ call ∈ activateAdvanced gfx shader, call.shader? = some shader := by
  simp [activateAdvanced, GLCall.shader?]

theorem localSpecular_shader (gfx : GraphicsManager M) (shader : GLSLShader)
    (stdMaterial : Option EMotionFX.StandardMaterial) :
    ∀ call ∈ localSpecular gfx shader stdMaterial, call.shader? = some shader := by
  cases stdMaterial <;> simp [localSpecular, GLCall.shader?]

theorem activateLocal_shader (gfx : GraphicsManager M) (self : StandardMaterial M)
    (shader : GLSLShader) (calls : List (GLCall M))
    (h : activateLocal gfx self shader = some calls) :
    ∀ call ∈ calls, call.shader? = some shader := by
  unfold activateLocal at h
  cases hm : self.mMaterial with
  | none => simp [hm] at h
  | some material =>
    simp only [hm] at h
    cases hd : localDiffuseColor gfx self material.asStandard with
    | none => simp [hd] at h
    | some diffuseColor =>
      simp only [hd, Option.some.injEq] at h
      subst h
      intro call hcall
      simp only [List.mem_append] at hcall
      rcases hcall with (hcall | hcall) | hcall
      · simp only [List.mem_singleton] at hcall
        subst hcall
        rfl
      · exact localSpecular_shader gfx shader _ call hcall
      · simp only [List.mem_cons, List.mem_singleton, List.not_mem_nil, or_false] at hcall
        rcases hcall with h | h | h <;> subst h <;> rfl

theorem Activate_some [Mul M] (gfx : GraphicsManager M) (LoadShader : ShaderLoader)
    (self : StandardMaterial M) (flags : Nat) (result : StandardMaterial M × List (GLCall M))
    (h : Activate gfx LoadShader self flags = some result) :
    result.1 = (UpdateShader LoadShader self).1
      ∧ ∃ binds, result.2 = (UpdateShader LoadShader self).2 ++ binds
          ∧ ∀ call ∈ binds, ∃ shader,
              result.1.mActiveShader = some shader ∧ call.shader? = some shader := by
  unfold Activate at h
  cases hsh : (UpdateShader LoadShader self).1.mActiveShader with
  | none =>
    simp only [hsh, Option.some.injEq] at h
    subst h
    exact ⟨rfl, [], by simp, by simp⟩
  | some shader =>
    simp only [hsh] at h
    have hglobal : ∀ call ∈ (if flags &&& GLOBAL ≠ 0 then
        activateGlobal gfx (UpdateShader LoadShader self).1 shader else []),
        call.shader? = some shader := by
      by_cases hg : flags &&& GLOBAL ≠ 0
      · rw [if_pos hg]
        exact activateGlobal_shader gfx _ shader
      · rw [if_neg hg]
        simp
    cases hl : (if flags &&& LOCAL ≠ 0 then
        activateLocal gfx (UpdateShader LoadShader self).1 shader else some []) with
    | none => simp [hl] at h
    | some localCalls =>
      simp only [hl, Option.some.injEq] at h
      subst h
      have hlocal : ∀ call ∈ localCalls, call.shader? = some shader := by
        by_cases hf : flags &&& LOCAL ≠ 0
        · rw [if_pos hf] at hl
          exact activateLocal_shader gfx _ shader localCalls hl
        · rw [if_neg hf, Option.some.injEq] at hl
          subst hl
          simp
      refine ⟨rfl, _, by simp only [List.append_assoc]; rfl, ?_⟩
      intro call hcall
      refine ⟨shader, hsh, ?_⟩
      simp only [List.mem_append] at hcall
      rcases hcall with hcall | hcall | hcall
      · exact hglobal call hcall
      · exact hlocal call hcall
      · exact activateAdvanced_shader gfx shader call hcall

theorem loadedDefines_append (xs ys : List (GLCall M)) :
    loadedDefines (xs ++ ys) = loadedDefines xs ++ loadedDefines ys := by
  induction xs with
  | nil => rfl
  | cons call rest ih => cases call <;> simp [loadedDefines, ih]

theorem loadedDefines_eq_nil (calls : List (GLCall M))
    (h : ∀ call ∈ calls, call.isLoadShader = false) : loadedDefines calls = [] := by
  induction calls with
  | nil => rfl
  | cons call rest ih =>
    have hrest := ih (fun c hc => h c (List.mem_cons_of_mem _ hc))
    have hcall := h call (List.mem_cons_self _ _)
    cases call <;> first | exact hrest | (simp [GLCall.isLoadShader] at hcall)

theorem UpdateShader_clean (LoadShader : ShaderLoader) (self : StandardMaterial M) :
    (UpdateShader LoadShader self).1.mAttributesUpdated = false := by
  unfold UpdateShader
  cases hd : self.mAttributesUpdated
  · simp [hd]
  · cases hf : findShader self.mAttributes self.mShaders <;> simp [hf]

theorem UpdateShader_mAttributes (LoadShader : ShaderLoader) (self : StandardMaterial M) :
    (UpdateShader LoadShader self).1.mAttributes = self.mAttributes := by
  unfold UpdateShader
  cases hd : self.mAttributesUpdated
  · simp
  · cases hf : findShader self.mAttributes self.mShaders <;> simp [hf]

theorem UpdateShader_hit (LoadShader : ShaderLoader) (self : StandardMaterial M)
    (shader : GLSLShader) (hdirty : self.mAttributesUpdated = true)
    (hfind : findShader self.mAttributes self.mShaders = some shader) :
    UpdateShader LoadShader self
      = ({ self with mActiveShader := some shader, mAttributesUpdated := false }, []) := by
  simp [UpdateShader, hdirty, hfind]

theorem UpdateShader_miss (LoadShader : ShaderLoader) (self : StandardMaterial M)
    (hdirty : self.mAttributesUpdated = true)
    (hfind : findShader self.mAttributes self.mShaders = none) :
    UpdateShader LoadShader self
      = ({ self with
            mActiveShader := LoadShader "StandardMaterial_VS.glsl" "StandardMaterial_PS.glsl"
              (collectDefines self.mAttributes attributeSlots)
            mShaders := self.mShaders ++ [LoadShader "StandardMaterial_VS.glsl"
              "StandardMaterial_PS.glsl" (collectDefines self.mAttributes attributeSlots)]
            mAttributesUpdated := false },
          [GLCall.LoadShader "StandardMaterial_VS.glsl" "StandardMaterial_PS.glsl"
            (collectDefines self.mAttributes attributeSlots)]) := by
  simp [UpdateShader, hdirty, hfind]

theorem UpdateShader_skip (LoadShader : ShaderLoader) (self : StandardMaterial M)
    (hclean : self.mAttributesUpdated = false) :
    UpdateShader LoadShader self = (self, []) := by
  simp [UpdateShader, hclean]

theorem agrees_of_exact (mAttributes : EAttribute → Bool) (shader : GLSLShader)
    (h : ∀ name, shader.CheckIfIsDefined name
      = decide (name ∈ collectDefines mAttributes attributeSlots)) :
    Agrees mAttributes shader := by
  intro n
  rw [h]
  cases hA : mAttributes n
  · simp only [decide_eq_false_iff_not]
    intro hmem
    rw [mem_collectDefines, hA] at hmem
    cases hmem
  · simp only [decide_eq_true_eq]
    exact (mem_collectDefines mAttributes n).2 hA

theorem not_compiled_of_miss (self : StandardMaterial M) (trace : List (GLCall M))
    (hcached : CompiledAreCached self trace)
    (hmiss : findShader self.mAttributes self.mShaders = none) :
    collectDefines self.mAttributes attributeSlots ∉ loadedDefines trace := by
  intro hmem
  obtain ⟨shader, hin, hexact⟩ := hcached _ hmem
  exact (findShader_eq_none_iff _ _).1 hmiss shader hin (agrees_of_exact _ _ hexact)

theorem SetAttribute_frame (self : StandardMaterial M) (a : EAttribute) (v : Bool) :
    (SetAttribute self a v).mShaders = self.mShaders
      ∧ (SetAttribute self a v).mActiveShader = self.mActiveShader
      ∧ (SetAttribute self a v).mMaterial = self.mMaterial
      ∧ (SetAttribute self a v).mDiffuseMap = self.mDiffuseMap
      ∧ (SetAttribute self a v).mSpecularMap = self.mSpecularMap
      ∧ (SetAttribute self a v).mNormalMap = self.mNormalMap
      ∧ (SetAttribute self a v).mBoneMatrices = self.mBoneMatrices := by
  unfold SetAttribute
  split <;> simp

theorem initLayer_frame (gfx : GraphicsManager M) (LoadTexture : TextureLoader)
    (self : StandardMaterial M) (i : Nat) (layer : EMotionFX.StandardMaterialLayer) :
    (initLayer gfx LoadTexture self i layer).mShaders = self.mShaders
      ∧ (initLayer gfx LoadTexture self i layer).mActiveShader = self.mActiveShader
      ∧ (initLayer gfx LoadTexture self i layer).mMaterial = self.mMaterial
      ∧ (initLayer gfx LoadTexture self i layer).mAttributes = self.mAttributes
      ∧ (initLayer gfx LoadTexture self i layer).mAttributesUpdated = self.mAttributesUpdated := by
  unfold initLayer
  cases layer.GetType <;> simp only <;> first | (split <;> simp) | simp

theorem initLayers_frame (gfx : GraphicsManager M) (LoadTexture : TextureLoader)
    (layers : List EMotionFX.StandardMaterialLayer) (i : Nat) (self : StandardMaterial M) :
    (initLayers gfx LoadTexture layers i self).mShaders = self.mShaders
      ∧ (initLayers gfx LoadTexture layers i self).mActiveShader = self.mActiveShader
      ∧ (initLayers gfx LoadTexture layers i self).mMaterial = self.mMaterial
      ∧ (initLayers gfx LoadTexture layers i self).mAttributes = self.mAttributes
      ∧ (initLayers gfx LoadTexture layers i self).mAttributesUpdated
          = self.mAttributesUpdated := by
  induction layers generalizing i self with
  | nil => simp [initLayers]
  | cons layer rest ih =>
    simp only [initLayers]
    obtain ⟨h1, h2, h3, h4, h5⟩ := ih (i + 1) (initLayer gfx LoadTexture self i layer)
    obtain ⟨k1, k2, k3, k4, k5⟩ := initLayer_frame gfx LoadTexture self i layer
    exact ⟨h1.trans k1, h2.trans k2, h3.trans k3, h4.trans k4, h5.trans k5⟩

theorem Init_frame (gfx : GraphicsManager M) (LoadTexture : TextureLoader)
    (self : StandardMaterial M) (material : EMotionFX.Material) :
    (Init gfx LoadTexture self material).2.mShaders = self.mShaders
      ∧ (Init gfx LoadTexture self material).2.mActiveShader = self.mActiveShader
      ∧ (Init gfx LoadTexture self material).2.mMaterial = some material
      ∧ (Init gfx LoadTexture self material).2.mAttributes = self.mAttributes
      ∧ (Init gfx LoadTexture self material).2.mAttributesUpdated = self.mAttributesUpdated := by
  unfold Init
  cases material with
  | standard std =>
    simp only
    obtain ⟨h1, h2, h3, h4, h5⟩ := initLayers_frame gfx LoadTexture std.layers 0
      { self with mMaterial := some (EMotionFX.Material.standard std) }
    exact ⟨h1, h2, h3, h4, h5⟩
  | other typeId => simp

theorem Render_frame [Mul M] (gfx : GraphicsManager M) (self : StandardMaterial M)
    (actorInstance : ActorInstance M) (primitive : Primitive) :
    (Render gfx self actorInstance primitive).1.mShaders = self.mShaders
      ∧ (Render gfx self actorInstance primitive).1.mActiveShader = self.mActiveShader
      ∧ (Render gfx self actorInstance primitive).1.mMaterial = self.mMaterial
      ∧ (Render gfx self actorInstance primitive).1.mAttributes = self.mAttributes
      ∧ (Render gfx self actorInstance primitive).1.mAttributesUpdated
          = self.mAttributesUpdated
      ∧ (Render gfx self actorInstance primitive).1.mDiffuseMap = self.mDiffuseMap := by
  unfold Render
  cases hsh : self.mActiveShader with
  | none => simp [hsh]
  | some shader =>
    cases hsk : self.mAttributes EAttribute.SKINNING <;> simp [hsh, hsk]

theorem Render_no_load [Mul M] (gfx : GraphicsManager M) (self : StandardMaterial M)
    (actorInstance : ActorInstance M) (primitive : Primitive) :
    loadedDefines (Render gfx self actorInstance primitive).2 = [] := by
  unfold Render
  cases hsh : self.mActiveShader with
  | none => simp [loadedDefines]
  | some shader =>
    cases hsk : self.mAttributes EAttribute.SKINNING <;> simp [loadedDefines]

theorem Deactivate_frame (self : StandardMaterial M) :
    (Deactivate self).1 = self ∧ loadedDefines (Deactivate self).2 = [] := by
  unfold Deactivate
  cases self.mActiveShader <;> simp [loadedDefines]

theorem Activate_loadedDefines [Mul M] (gfx : GraphicsManager M) (LoadShader : ShaderLoader)
    (self : StandardMaterial M) (flags : Nat) (result : StandardMaterial M × List (GLCall M))
    (h : Activate gfx LoadShader self flags = some result) :
    loadedDefines result.2 = loadedDefines (UpdateShader LoadShader self).2 := by
  obtain ⟨_, binds, hcalls, hbinds⟩ := Activate_some gfx LoadShader self flags result h
  rw [hcalls, loadedDefines_append, loadedDefines_eq_nil binds, List.append_nil]
  intro call hcall
  obtain ⟨shader, _, hshader⟩ := hbinds call hcall
  exact isLoadShader_of_shader call shader hshader

theorem run_induction [Mul M] (gfx : GraphicsManager M) (LoadShader : Nat → ShaderLoader)
    (P : StandardMaterial M → List (GLCall M) → Prop)
    (hstep : ∀ self trace call self' calls, P self trace →
      step gfx (LoadShader (loadedDefines trace).length) self call = some (self', calls) →
      P self' (trace ++ calls))
    (calls : List (Call M)) :
    ∀ (self : StandardMaterial M) (trace : List (GLCall M))
      (last : StandardMaterial M) (final : List (GLCall M)),
      P self trace → run gfx LoadShader calls self trace = some (last, final) → P last final := by
  induction calls with
  | nil =>
    intro self trace last final hP hrun
    simp only [run, Option.some.injEq, Prod.mk.injEq] at hrun
    obtain ⟨rfl, rfl⟩ := hrun
    exact hP
  | cons call rest ih =>
    intro self trace last final hP hrun
    simp only [run] at hrun
    cases hs : step gfx (LoadShader (loadedDefines trace).length) self call with
    | none => simp [hs] at hrun
    | some next =>
      obtain ⟨self', calls⟩ := next
      simp only [hs] at hrun
      exact ih self' (trace ++ calls) last final (hstep self trace call self' calls hP hs) hrun

theorem construct_fields (gfx : GraphicsManager M) (uninitAttributes : EAttribute → Bool)
    (uninitBoneMatrices : Nat → M) :
    (StandardMaterial.construct gfx uninitAttributes uninitBoneMatrices).mShaders = []
      ∧ (StandardMaterial.construct gfx uninitAttributes uninitBoneMatrices).mActiveShader = none
      ∧ (StandardMaterial.construct gfx uninitAttributes uninitBoneMatrices).mMaterial = none
      ∧ (StandardMaterial.construct gfx uninitAttributes uninitBoneMatrices).mDiffuseMap
          = gfx.GetTextureCache.GetWhiteTexture
      ∧ (StandardMaterial.construct gfx uninitAttributes uninitBoneMatrices).mSpecularMap
          = gfx.GetTextureCache.GetWhiteTexture
      ∧ (StandardMaterial.construct gfx uninitAttributes uninitBoneMatrices).mNormalMap
          = gfx.GetTextureCache.GetDefaultNormalTexture := by
  simp only [StandardMaterial.construct]
  refine ⟨?_, ?_, ?_, ?_, ?_, ?_⟩ <;>
    simp only [(SetAttribute_frame _ _ _).1, (SetAttribute_frame _ _ _).2.1,
      (SetAttribute_frame _ _ _).2.2.1, (SetAttribute_frame _ _ _).2.2.2.1,
      (SetAttribute_frame _ _ _).2.2.2.2.1, (SetAttribute_frame _ _ _).2.2.2.2.2.1]

theorem construct_dirty (gfx : GraphicsManager M) (uninitAttributes : EAttribute → Bool)
    (uninitBoneMatrices : Nat → M) :
    (StandardMaterial.construct gfx uninitAttributes uninitBoneMatrices).mAttributesUpdated
      = true := by
  simp only [StandardMaterial.construct, SetAttribute]
  repeat' split
  all_goals rfl

theorem UpdateShader_cache_inv (LoadShader : ShaderLoader) (self : StandardMaterial M)
    (trace : List (GLCall M))
    (hexact : ∀ vertexFile pixelFile defines, ∃ shader,
      LoadShader vertexFile pixelFile defines = some shader
        ∧ ∀ name, shader.CheckIfIsDefined name = decide (name ∈ defines))
    (hcached : CompiledAreCached self trace) (hnodup : (loadedDefines trace).Nodup) :
    CompiledAreCached (UpdateShader LoadShader self).1 (trace ++ (UpdateShader LoadShader self).2)
      ∧ (loadedDefines (trace ++ (UpdateShader LoadShader self).2)).Nodup := by
  cases hd : self.mAttributesUpdated with
  | false =>
    rw [UpdateShader_skip LoadShader self hd]
    simpa using ⟨hcached, hnodup⟩
  | true =>
    cases hf : findShader self.mAttributes self.mShaders with
    | some shader =>
      rw [UpdateShader_hit LoadShader self shader hd hf]
      simp only [List.append_nil]
      exact ⟨hcached, hnodup⟩
    | none =>
      rw [UpdateShader_miss LoadShader self hd hf]
      obtain ⟨shader, hload, hnames⟩ := hexact "StandardMaterial_VS.glsl"
        "StandardMaterial_PS.glsl" (collectDefines self.mAttributes attributeSlots)
      have hnew := not_compiled_of_miss self trace hcached hf
      unfold CompiledAreCached at hcached ⊢
      simp only [loadedDefines_append, loadedDefines, hload]
      constructor
      · intro defines hmem
        simp only [List.mem_append, List.mem_singleton] at hmem
        rcases hmem with hmem | rfl
        · obtain ⟨sh, hin, hsh⟩ := hcached defines hmem
          exact ⟨sh, List.mem_append_left _ hin, hsh⟩
        · exact ⟨shader, by simp, hnames⟩
      · rw [List.nodup_append]
        refine ⟨hnodup, by simp, ?_⟩
        intro a ha hb
        simp only [List.mem_singleton] at hb
        subst hb
        exact hnew ha

theorem step_cache_inv [Mul M] (gfx : GraphicsManager M) (LoadShader : Nat → ShaderLoader)
    (hexact : ExactLoader LoadShader)
    (self : StandardMaterial M) (trace : List (GLCall M)) (call : Call M)
    (self' : StandardMaterial M) (calls : List (GLCall M))
    (hinv : CompiledAreCached self trace ∧ (loadedDefines trace).Nodup)
    (hstep : step gfx (LoadShader (loadedDefines trace).length) self call = some (self', calls)) :
    CompiledAreCached self' (trace ++ calls) ∧ (loadedDefines (trace ++ calls)).Nodup := by
  have hkeep : ∀ (next : StandardMaterial M) (issued : List (GLCall M)),
      next.mShaders = self.mShaders → loadedDefines issued = [] →
      CompiledAreCached next (trace ++ issued)
        ∧ (loadedDefines (trace ++ issued)).Nodup := by
    intro next issued hs hl
    unfold CompiledAreCached
    rw [loadedDefines_append, hl, List.append_nil, hs]
    exact hinv
  cases call with
  | Init material LoadTexture =>
    simp only [step, Option.some.injEq, Prod.mk.injEq] at hstep
    obtain ⟨rfl, rfl⟩ := hstep
    exact hkeep _ _ (Init_frame gfx LoadTexture self material).1 rfl
  | SetAttribute index enabled =>
    simp only [step, Option.some.injEq, Prod.mk.injEq] at hstep
    obtain ⟨rfl, rfl⟩ := hstep
    exact hkeep _ _ (SetAttribute_frame self index enabled).1 rfl
  | Activate flags =>
    simp only [step] at hstep
    obtain ⟨hstate, binds, hcalls, hbinds⟩ := Activate_some gfx _ self flags _ hstep
    have hload := Activate_loadedDefines gfx _ self flags _ hstep
    obtain ⟨h1, h2⟩ := UpdateShader_cache_inv (LoadShader (loadedDefines trace).length) self
      trace (hexact _) hinv.1 hinv.2
    subst hstate
    unfold CompiledAreCached at h1 ⊢
    rw [loadedDefines_append] at h1 h2 ⊢
    rw [hload]
    exact ⟨h1, h2⟩
  | Render actorInstance primitive =>
    simp only [step, Option.some.injEq] at hstep
    have h1 := (Render_frame gfx self actorInstance primitive).1
    have h2 := Render_no_load gfx self actorInstance primitive
    rw [hstep] at h1 h2
    exact hkeep _ _ h1 h2
  | Deactivate =>
    simp only [step, Option.some.injEq] at hstep
    have h := Deactivate_frame self
    rw [hstep] at h
    have h1 : self' = self := h.1
    exact hkeep _ _ (by rw [h1]) h.2

theorem step_noop [Mul M] (gfx : GraphicsManager M) (LoadShader : ShaderLoader)
    (self : StandardMaterial M) (call : Call M)
    (hnull : self.mActiveShader = none) (hclean : self.mAttributesUpdated = false)
    (hcall : call.leavesAttributes self.mAttributes) :
    step gfx LoadShader self call = some (self, []) := by
  cases call with
  | Init material LoadTexture => exact absurd hcall (by simp [Call.leavesAttributes])
  | SetAttribute index enabled =>
    have hsame : self.mAttributes index = enabled := hcall
    simp [step, SetAttribute, hsame]
  | Activate flags =>
    simp [step, Activate, UpdateShader_skip LoadShader self hclean, hnull]
  | Render actorInstance primitive =>
    simp [step, Render, hnull]
  | Deactivate =>
    simp [step, Deactivate, hnull]

theorem run_noop [Mul M] (gfx : GraphicsManager M) (LoadShader : Nat → ShaderLoader)
    (self : StandardMaterial M)
    (hnull : self.mActiveShader = none) (hclean : self.mAttributesUpdated = false)
    (calls : List (Call M)) (hcalls : ∀ call ∈ calls, call.leavesAttributes self.mAttributes)
    (trace : List (GLCall M)) :
    run gfx LoadShader calls self trace = some (self, trace) := by
  induction calls with
  | nil => rfl
  | cons call rest ih =>
    simp only [run, step_noop gfx _ self call hnull hclean (hcalls call (List.mem_cons_self _ _)),
      List.append_nil]
    exact ih (fun c hc => hcalls c (List.mem_cons_of_mem _ hc))

theorem UpdateShader_resolved (LoadShader : ShaderLoader) (self : StandardMaterial M)
    (hexact : ∀ vertexFile pixelFile defines, ∃ shader,
      LoadShader vertexFile pixelFile defines = some shader
        ∧ ∀ name, shader.CheckIfIsDefined name = decide (name ∈ defines))
    (hinv : ResolvedWhenClean self) :
    ∀ shader, (UpdateShader LoadShader self).1.mActiveShader = some shader →
      Agrees (UpdateShader LoadShader self).1.mAttributes shader := by
  intro shader hactive
  rw [UpdateShader_mAttributes]
  cases hd : self.mAttributesUpdated with
  | false =>
    rw [UpdateShader_skip LoadShader self hd] at hactive
    exact hinv hd shader hactive
  | true =>
    cases hf : findShader self.mAttributes self.mShaders with
    | some found =>
      rw [UpdateShader_hit LoadShader self found hd hf] at hactive
      simp only [Option.some.injEq] at hactive
      subst hactive
      exact (findShader_agrees _ _ _ hf).1
    | none =>
      rw [UpdateShader_miss LoadShader self hd hf] at hactive
      obtain ⟨loaded, hload, hnames⟩ := hexact "StandardMaterial_VS.glsl"
        "StandardMaterial_PS.glsl" (collectDefines self.mAttributes attributeSlots)
      simp only [hload, Option.some.injEq] at hactive
      subst hactive
      exact agrees_of_exact _ _ hnames

theorem step_resolved [Mul M] (gfx : GraphicsManager M) (LoadShader : ShaderLoader)
    (hexact : ∀ vertexFile pixelFile defines, ∃ shader,
      LoadShader vertexFile pixelFile defines = some shader
        ∧ ∀ name, shader.CheckIfIsDefined name = decide (name ∈ defines))
    (self : StandardMaterial M) (call : Call M)
    (self' : StandardMaterial M) (calls : List (GLCall M))
    (hinv : ResolvedWhenClean self)
    (hstep : step gfx LoadShader self call = some (self', calls)) :
    ResolvedWhenClean self' := by
  cases call with
  | Init material LoadTexture =>
    simp only [step, Option.some.injEq, Prod.mk.injEq] at hstep
    obtain ⟨rfl, rfl⟩ := hstep
    obtain ⟨_, h2, _, h4, h5⟩ := Init_frame gfx LoadTexture self material
    unfold ResolvedWhenClean
    rw [h2, h4, h5]
    exact hinv
  | SetAttribute index enabled =>
    simp only [step, Option.some.injEq, Prod.mk.injEq] at hstep
    obtain ⟨rfl, rfl⟩ := hstep
    unfold SetAttribute
    split
    · intro hclean
      simp at hclean
    · exact hinv
  | Activate flags =>
    simp only [step] at hstep
    have hstate := (Activate_some gfx _ self flags _ hstep).1
    simp only at hstate
    subst hstate
    intro _ shader hactive
    exact UpdateShader_resolved LoadShader self hexact hinv shader hactive
  | Render actorInstance primitive =>
    simp only [step, Option.some.injEq] at hstep
    obtain ⟨_, h2, _, h4, h5, _⟩ := Render_frame gfx self actorInstance primitive
    rw [hstep] at h2 h4 h5
    simp only at h2 h4 h5
    unfold ResolvedWhenClean
    rw [h2, h4, h5]
    exact hinv
  | Deactivate =>
    simp only [step, Option.some.injEq] at hstep
    have h := (Deactivate_frame self).1
    rw [hstep] at h
    have h1 : self' = self := h
    rw [h1]
    exact hinv

theorem construct_resolved (gfx : GraphicsManager M) (uninitAttributes : EAttribute → Bool)
    (uninitBoneMatrices : Nat → M) :
    ResolvedWhenClean (StandardMaterial.construct gfx uninitAttributes uninitBoneMatrices) := by
  intro hclean
  rw [construct_dirty] at hclean
  cases hclean

theorem Render_draws [Mul M] (gfx : GraphicsManager M) (self : StandardMaterial M)
    (actorInstance : ActorInstance M) (primitive : Primitive) (shader : GLSLShader)
    (hactive : self.mActiveShader = some shader) :
    ∃ call ∈ (Render gfx self actorInstance primitive).2, call.isDraw = true := by
  refine ⟨GLCall.glDrawElements GLenum.GL_TRIANGLES (primitive.mNumTriangles * 3 % 2 ^ 32)
    GLenum.GL_UNSIGNED_INT (primitive.mIndexOffset * 4 % 2 ^ 64), ?_, rfl⟩
  simp [Render, hactive]

theorem skinLoop_below [Mul M] (globalMatrices invBindPoseMatrices : Nat → M) (invNodeTM : M)
    (bones : List Nat) (i : Nat) (mBoneMatrices : Nat → M) (j : Nat) (hj : j < i) :
    skinLoop globalMatrices invBindPoseMatrices invNodeTM bones i mBoneMatrices j
      = mBoneMatrices j := by
  induction bones generalizing i mBoneMatrices with
  | nil => rfl
  | cons nodeNr rest ih =>
    simp only [skinLoop]
    rw [ih (i + 1) _ (by omega)]
    exact Function.update_noteq (by omega) _ _

theorem skinLoop_entry [Mul M] (globalMatrices invBindPoseMatrices : Nat → M) (invNodeTM : M)
    (bones : List Nat) (i : Nat) (mBoneMatrices : Nat → M) (k nodeNr : Nat)
    (hk : bones[k]? = some nodeNr) :
    skinLoop globalMatrices invBindPoseMatrices invNodeTM bones i mBoneMatrices (i + k)
      = invBindPoseMatrices nodeNr * globalMatrices nodeNr * invNodeTM := by
  induction bones generalizing i mBoneMatrices k with
  | nil => simp at hk
  | cons head rest ih =>
    simp only [skinLoop]
    cases k with
    | zero =>
      simp only [List.getElem?_cons_zero, Option.some.injEq] at hk
      subst hk
      rw [Nat.add_zero, skinLoop_below _ _ _ _ _ _ _ (by omega)]
      simp [MultMatrix4x3]
    | succ k =>
      simp only [List.getElem?_cons_succ] at hk
      have hidx : i + (k + 1) = (i + 1) + k := by omega
      rw [hidx]
      exact ih (i + 1) _ k hk

theorem arrayPrefix_skinLoop [Mul M] (globalMatrices invBindPoseMatrices : Nat → M)
    (invNodeTM : M) (bones : List Nat) (mBoneMatrices : Nat → M) :
    arrayPrefix (skinLoop globalMatrices invBindPoseMatrices invNodeTM bones 0 mBoneMatrices)
        bones.length
      = bones.map (fun nodeNr =>
          invBindPoseMatrices nodeNr * globalMatrices nodeNr * invNodeTM) := by
  apply List.ext_getElem?
  intro k
  by_cases hk : k < bones.length
  · have hget : bones[k]? = some bones[k] := List.getElem?_eq_getElem hk
    have hentry := skinLoop_entry globalMatrices invBindPoseMatrices invNodeTM bones 0
      mBoneMatrices k bones[k] hget
    rw [Nat.zero_add] at hentry
    simp [arrayPrefix, hk, hentry, List.getElem?_eq_getElem]
  · have h1 : (List.range bones.length)[k]? = none :=
      List.getElem?_eq_none (by simp; omega)
    have h2 : bones[k]? = none := List.getElem?_eq_none (by omega)
    simp [arrayPrefix, h1, h2]

theorem loadOr_ne_none (fallback loaded : Option Texture) (h : fallback ≠ none) :
    loadOr fallback loaded ≠ none := by
  cases loaded <;> simp [loadOr, h]

theorem initLayers_bound (gfx : GraphicsManager M) (LoadTexture : TextureLoader)
    (proj : StandardMaterial M → Option Texture) (isKind : EMotionFX.LayerType → Prop)
    (fallback : Option Texture)
    (hother : ∀ self i (layer : EMotionFX.StandardMaterialLayer), ¬ isKind layer.GetType →
      proj (initLayer gfx LoadTexture self i layer) = proj self)
    (hkind : ∀ self i (layer : EMotionFX.StandardMaterialLayer), isKind layer.GetType →
      proj (initLayer gfx LoadTexture self i layer)
        = loadOr fallback (LoadTexture i layer.GetFileName))
    (layers : List EMotionFX.StandardMaterialLayer) :
    ∀ (start : Nat) (self : StandardMaterial M),
      ((∀ layer ∈ layers, ¬ isKind layer.GetType) →
          proj (initLayers gfx LoadTexture layers start self) = proj self)
        ∧ ∀ (i : Nat) (layer : EMotionFX.StandardMaterialLayer),
            layers[i]? = some layer → isKind layer.GetType →
            (∀ (j : Nat) (later : EMotionFX.StandardMaterialLayer),
              i < j → layers[j]? = some later → ¬ isKind later.GetType) →
            proj (initLayers gfx LoadTexture layers start self)
              = loadOr fallback (LoadTexture (start + i) layer.GetFileName) := by
  induction layers with
  | nil =>
    intro start self
    exact ⟨fun _ => rfl, fun i layer h => by simp at h⟩
  | cons head rest ih =>
    intro start self
    obtain ⟨ihnone, ihlast⟩ := ih (start + 1) (initLayer gfx LoadTexture self start head)
    constructor
    · intro hnone
      simp only [initLayers]
      rw [ihnone (fun l hl => hnone l (List.mem_cons_of_mem _ hl))]
      exact hother self start head (hnone head (List.mem_cons_self _ _))
    · intro i layer hi hk hlast
      simp only [initLayers]
      cases i with
      | zero =>
        simp only [List.getElem?_cons_zero, Option.some.injEq] at hi
        subst hi
        rw [ihnone, Nat.add_zero]
        · exact hkind self start head hk
        · intro l hl
          obtain ⟨n, hn⟩ := List.getElem?_of_mem hl
          exact hlast (n + 1) l (by omega) (by simpa using hn)
      | succ i =>
        simp only [List.getElem?_cons_succ] at hi
        have hidx : start + (i + 1) = (start + 1) + i := by omega
        rw [hidx]
        apply ihlast i layer hi hk
        intro j later hj hlater
        exact hlast (j + 1) later (by omega) (by simpa using hlater)

theorem initLayer_diffuse (gfx : GraphicsManager M) (LoadTexture : TextureLoader)
    (self : StandardMaterial M) (i : Nat) (layer : EMotionFX.StandardMaterialLayer) :
    (layer.GetType ≠ EMotionFX.LayerType.LAYERTYPE_DIFFUSE →
        (initLayer gfx LoadTexture self i layer).mDiffuseMap = self.mDiffuseMap)
      ∧ (layer.GetType = EMotionFX.LayerType.LAYERTYPE_DIFFUSE →
          (initLayer gfx LoadTexture self i layer).mDiffuseMap
            = loadOr gfx.GetTextureCache.GetWhiteTexture (LoadTexture i layer.GetFileName)) := by
  unfold initLayer
  cases hT : layer.GetType <;> cases hL : LoadTexture i layer.GetFileName <;>
    simp [loadOr, hL]

theorem initLayer_specular (gfx : GraphicsManager M) (LoadTexture : TextureLoader)
    (self : StandardMaterial M) (i : Nat) (layer : EMotionFX.StandardMaterialLayer) :
    (layer.GetType ≠ EMotionFX.LayerType.LAYERTYPE_SHINESTRENGTH →
        (initLayer gfx LoadTexture self i layer).mSpecularMap = self.mSpecularMap)
      ∧ (layer.GetType = EMotionFX.LayerType.LAYERTYPE_SHINESTRENGTH →
          (initLayer gfx LoadTexture self i layer).mSpecularMap
            = loadOr gfx.GetTextureCache.GetWhiteTexture (LoadTexture i layer.GetFileName)) := by
  unfold initLayer
  cases hT : layer.GetType <;> cases hL : LoadTexture i layer.GetFileName <;>
    simp [loadOr, hL]

theorem initLayer_normal (gfx : GraphicsManager M) (LoadTexture : TextureLoader)
    (self : StandardMaterial M) (i : Nat) (layer : EMotionFX.StandardMaterialLayer) :
    (¬ (layer.GetType = EMotionFX.LayerType.LAYERTYPE_BUMP
          ∨ layer.GetType = EMotionFX.LayerType.LAYERTYPE_NORMALMAP) →
        (initLayer gfx LoadTexture self i layer).mNormalMap = self.mNormalMap)
      ∧ (layer.GetType = EMotionFX.LayerType.LAYERTYPE_BUMP
            ∨ layer.GetType = EMotionFX.LayerType.LAYERTYPE_NORMALMAP →
          (initLayer gfx LoadTexture self i layer).mNormalMap
            = loadOr gfx.GetTextureCache.GetDefaultNormalTexture
                (LoadTexture i layer.GetFileName)) := by
  unfold initLayer
  cases hT : layer.GetType <;> cases hL : LoadTexture i layer.GetFileName <;>
    simp [loadOr, hL]

theorem initLayer_nonnull (gfx : GraphicsManager M) (LoadTexture : TextureLoader)
    (hwhite : gfx.GetTextureCache.GetWhiteTexture ≠ none)
    (hnormal : gfx.GetTextureCache.GetDefaultNormalTexture ≠ none)
    (self : StandardMaterial M) (i : Nat) (layer : EMotionFX.StandardMaterialLayer)
    (h : self.mDiffuseMap ≠ none ∧ self.mSpecularMap ≠ none ∧ self.mNormalMap ≠ none) :
    (initLayer gfx LoadTexture self i layer).mDiffuseMap ≠ none
      ∧ (initLayer gfx LoadTexture self i layer).mSpecularMap ≠ none
      ∧ (initLayer gfx LoadTexture self i layer).mNormalMap ≠ none := by
  obtain ⟨h1, h2, h3⟩ := h
  unfold initLayer
  cases hT : layer.GetType <;> cases hL : LoadTexture i layer.GetFileName <;>
    simp [hL, h1, h2, h3, hwhite, hnormal]

theorem initLayers_nonnull (gfx : GraphicsManager M) (LoadTexture : TextureLoader)
    (hwhite : gfx.GetTextureCache.GetWhiteTexture ≠ none)
    (hnormal : gfx.GetTextureCache.GetDefaultNormalTexture ≠ none)
    (layers : List EMotionFX.StandardMaterialLayer) (i : Nat) (self : StandardMaterial M)
    (h : self.mDiffuseMap ≠ none ∧ self.mSpecularMap ≠ none ∧ self.mNormalMap ≠ none) :
    (initLayers gfx LoadTexture layers i self).mDiffuseMap ≠ none
      ∧ (initLayers gfx LoadTexture layers i self).mSpecularMap ≠ none
      ∧ (initLayers gfx LoadTexture layers i self).mNormalMap ≠ none := by
  induction layers generalizing i self with
  | nil => exact h
  | cons layer rest ih =>
    simp only [initLayers]
    exact ih (i + 1) _ (initLayer_nonnull gfx LoadTexture hwhite hnormal self i layer h)

theorem Init_nonnull (gfx : GraphicsManager M) (LoadTexture : TextureLoader)
    (hwhite : gfx.GetTextureCache.GetWhiteTexture ≠ none)
    (hnormal : gfx.GetTextureCache.GetDefaultNormalTexture ≠ none)
    (self : StandardMaterial M) (material : EMotionFX.Material)
    (h : self.mDiffuseMap ≠ none ∧ self.mSpecularMap ≠ none ∧ self.mNormalMap ≠ none) :
    (Init gfx LoadTexture self material).2.mDiffuseMap ≠ none
      ∧ (Init gfx LoadTexture self material).2.mSpecularMap ≠ none
      ∧ (Init gfx LoadTexture self material).2.mNormalMap ≠ none := by
  unfold Init
  cases material with
  | standard std => exact initLayers_nonnull gfx LoadTexture hwhite hnormal std.layers 0 _ h
  | other typeId => exact h

theorem uniformWrites_append (name : String) (xs ys : List (GLCall M)) :
    uniformWrites name (xs ++ ys) = uniformWrites name xs ++ uniformWrites name ys := by
  induction xs with
  | nil => rfl
  | cons call rest ih =>
    cases call with
    | SetUniform shader written value =>
      simp only [List.cons_append, uniformWrites]
      split <;> simp [ih]
    | _ => simpa only [List.cons_append, uniformWrites] using ih

theorem UpdateShader_frame (LoadShader : ShaderLoader) (self : StandardMaterial M) :
    (UpdateShader LoadShader self).1.mMaterial = self.mMaterial
      ∧ (UpdateShader LoadShader self).1.mDiffuseMap = self.mDiffuseMap
      ∧ uniformWrites "diffuseColor" (UpdateShader LoadShader self).2 = [] := by
  unfold UpdateShader
  cases hd : self.mAttributesUpdated
  · simp [uniformWrites]
  · cases hf : findShader self.mAttributes self.mShaders <;> simp [hf, uniformWrites]

theorem initLayers_diffuse_nonnull (gfx : GraphicsManager M) (LoadTexture : TextureLoader)
    (hwhite : gfx.GetTextureCache.GetWhiteTexture ≠ none)
    (layers : List EMotionFX.StandardMaterialLayer) (i : Nat) (self : StandardMaterial M)
    (h : self.mDiffuseMap ≠ none) :
    (initLayers gfx LoadTexture layers i self).mDiffuseMap ≠ none := by
  induction layers generalizing i self with
  | nil => exact h
  | cons layer rest ih =>
    simp only [initLayers]
    apply ih
    by_cases hk : layer.GetType = EMotionFX.LayerType.LAYERTYPE_DIFFUSE
    · rw [(initLayer_diffuse gfx LoadTexture self i layer).2 hk]
      exact loadOr_ne_none _ _ hwhite
    · rw [(initLayer_diffuse gfx LoadTexture self i layer).1 hk]
      exact h

theorem Init_initialised (gfx : GraphicsManager M) (LoadTexture : TextureLoader)
    (hwhite : gfx.GetTextureCache.GetWhiteTexture ≠ none)
    (self : StandardMaterial M) (material : EMotionFX.Material)
    (h : self.mDiffuseMap ≠ none) :
    Initialised (Init gfx LoadTexture self material).2 := by
  refine ⟨by rw [(Init_frame gfx LoadTexture self material).2.2.1]; simp, ?_⟩
  unfold Init
  cases material with
  | standard std => exact initLayers_diffuse_nonnull gfx LoadTexture hwhite std.layers 0 _ h
  | other typeId => exact h

theorem localDiffuseColor_policy (gfx : GraphicsManager M) (self : StandardMaterial M)
    (material : EMotionFX.Material) (hmat : self.mMaterial = some material)
    (hmap : self.mDiffuseMap ≠ none) :
    localDiffuseColor gfx self material.asStandard = some (diffuseColorPolicy gfx self) := by
  unfold localDiffuseColor diffuseColorPolicy
  rw [hmat]
  have hne : (self.mDiffuseMap == none) = false := by
    cases hd : self.mDiffuseMap with
    | none => exact absurd hd hmap
    | some t => rfl
  cases material with
  | other typeId => simp [EMotionFX.Material.asStandard, hne]
  | standard std =>
    simp only [EMotionFX.Material.asStandard, hne, Bool.false_or, Option.isSome_some,
      Bool.and_true, beq_iff_eq]
    split <;> rfl

theorem activateGlobal_no_diffuse [Mul M] (gfx : GraphicsManager M) (self : StandardMaterial M)
    (shader : GLSLShader) :
    uniformWrites "diffuseColor" (activateGlobal gfx self shader) = [] := by
  unfold activateGlobal
  cases self.mAttributes EAttribute.SKINNING <;> simp [uniformWrites]

theorem activateLocal_diffuse (gfx : GraphicsManager M) (self : StandardMaterial M)
    (shader : GLSLShader) (hinit : Initialised self) :
    ∃ calls, activateLocal gfx self shader = some calls
      ∧ uniformWrites "diffuseColor" calls
          = [(shader, UniformValue.color (diffuseColorPolicy gfx self))] := by
  obtain ⟨hmat, hmap⟩ := hinit
  cases hm : self.mMaterial with
  | none => exact absurd hm hmat
  | some material =>
    have hcolor := localDiffuseColor_policy gfx self material hm hmap
    have heq : activateLocal gfx self shader
        = some ([GLCall.SetUniform shader "diffuseColor"
              (UniformValue.color (diffuseColorPolicy gfx self))]
            ++ localSpecular gfx shader material.asStandard
            ++ [ GLCall.SetUniform shader "normalMap" (UniformValue.texture self.mNormalMap),
                 GLCall.SetUniform shader "diffuseMap" (UniformValue.texture self.mDiffuseMap),
                 GLCall.SetUniform shader "specularMap"
                   (UniformValue.texture self.mSpecularMap) ]) := by
      simp only [activateLocal, hm, hcolor]
    refine ⟨_, heq, ?_⟩
    cases material.asStandard <;> simp [uniformWrites, localSpecular]

theorem Activate_of_null [Mul M] (gfx : GraphicsManager M) (LoadShader : ShaderLoader)
    (self : StandardMaterial M) (flags : Nat)
    (hnull : (UpdateShader LoadShader self).1.mActiveShader = none) :
    Activate gfx LoadShader self flags
      = some ((UpdateShader LoadShader self).1, (UpdateShader LoadShader self).2) := by
  unfold Activate
  simp only [hnull]

theorem Activate_of_active [Mul M] (gfx : GraphicsManager M) (LoadShader : ShaderLoader)
    (self : StandardMaterial M) (flags : Nat) (shader : GLSLShader)
    (localCalls : List (GLCall M))
    (hactive : (UpdateShader LoadShader self).1.mActiveShader = some shader)
    (hlocal : (if flags &&& LOCAL ≠ 0 then
        activateLocal gfx (UpdateShader LoadShader self).1 shader else some [])
      = some localCalls) :
    Activate gfx LoadShader self flags
      = some ((UpdateShader LoadShader self).1,
          (UpdateShader LoadShader self).2
            ++ (if flags &&& GLOBAL ≠ 0 then
                activateGlobal gfx (UpdateShader LoadShader self).1 shader else [])
            ++ localCalls ++ activateAdvanced gfx shader) := by
  unfold Activate
  simp only [hactive, hlocal]

theorem Activate_initialised [Mul M] (gfx : GraphicsManager M) (LoadShader : ShaderLoader)
    (self : StandardMaterial M) (flags : Nat) (hinit : Initialised self) :
    ∃ result, Activate gfx LoadShader self flags = some result
      ∧ (flags &&& LOCAL ≠ 0 → ∀ shader, result.1.mActiveShader = some shader →
          uniformWrites "diffuseColor" result.2
            = [(shader, UniformValue.color (diffuseColorPolicy gfx self))]) := by
  obtain ⟨fM, fD, fU⟩ := UpdateShader_frame LoadShader self
  have hinit' : Initialised (UpdateShader LoadShader self).1 := by
    unfold Initialised
    rw [fM, fD]
    exact hinit
  have hpolicy : diffuseColorPolicy gfx (UpdateShader LoadShader self).1
      = diffuseColorPolicy gfx self := by
    unfold diffuseColorPolicy
    rw [fM, fD]
  cases hsh : (UpdateShader LoadShader self).1.mActiveShader with
  | none =>
    refine ⟨_, Activate_of_null gfx LoadShader self flags hsh, ?_⟩
    intro _ shader hactive
    rw [hsh] at hactive
    cases hactive
  | some shader =>
    obtain ⟨localCalls, hlocal, hwrites⟩ := activateLocal_diffuse gfx _ shader hinit'
    by_cases hf : flags &&& LOCAL ≠ 0
    · refine ⟨_, Activate_of_active gfx LoadShader self flags shader localCalls hsh
        (by rw [if_pos hf]; exact hlocal), ?_⟩
      intro _ active hactive
      rw [hsh, Option.some.injEq] at hactive
      subst hactive
      have hadv : uniformWrites "diffuseColor" (activateAdvanced gfx shader) = [] := by
        simp [activateAdvanced, uniformWrites]
      have hglobal : uniformWrites "diffuseColor" (if flags &&& GLOBAL ≠ 0 then
          activateGlobal gfx (UpdateShader LoadShader self).1 shader else []) = [] := by
        by_cases hg : flags &&& GLOBAL ≠ 0
        · rw [if_pos hg, activateGlobal_no_diffuse]
        · rw [if_neg hg]
          rfl
      simp only [uniformWrites_append, fU, hwrites, hpolicy, hadv, hglobal, List.nil_append,
        List.append_nil]
    · refine ⟨_, Activate_of_active gfx LoadShader self flags shader [] hsh
        (by rw [if_neg hf]), ?_⟩
      exact fun h => absurd h hf

theorem step_initialised [Mul M] (gfx : GraphicsManager M) (LoadShader : ShaderLoader)
    (hwhite : gfx.GetTextureCache.GetWhiteTexture ≠ none)
    (self : StandardMaterial M) (call : Call M) (hinit : Initialised self) :
    ∃ next calls, step gfx LoadShader self call = some (next, calls) ∧ Initialised next := by
  cases call with
  | Init material LoadTexture =>
    exact ⟨(Init gfx LoadTexture self material).2, [], rfl,
      Init_initialised gfx LoadTexture hwhite self material hinit.2⟩
  | SetAttribute index enabled =>
    refine ⟨SetAttribute self index enabled, [], rfl, ?_⟩
    unfold Initialised
    rw [(SetAttribute_frame self index enabled).2.2.1,
      (SetAttribute_frame self index enabled).2.2.2.1]
    exact hinit
  | Activate flags =>
    obtain ⟨result, hact, _⟩ := Activate_initialised gfx LoadShader self flags hinit
    refine ⟨result.1, result.2, hact, ?_⟩
    rw [(Activate_some gfx LoadShader self flags result hact).1]
    unfold Initialised
    rw [(UpdateShader_frame LoadShader self).1, (UpdateShader_frame LoadShader self).2.1]
    exact hinit
  | Render actorInstance primitive =>
    refine ⟨(Render gfx self actorInstance primitive).1,
      (Render gfx self actorInstance primitive).2, rfl, ?_⟩
    unfold Initialised
    obtain ⟨_, _, h3, _, _, h6⟩ := Render_frame gfx self actorInstance primitive
    rw [h3, h6]
    exact hinit
  | Deactivate =>
    refine ⟨(Deactivate self).1, (Deactivate self).2, rfl, ?_⟩
    rw [(Deactivate_frame self).1]
    exact hinit

theorem run_initialised [Mul M] (gfx : GraphicsManager M) (LoadShader : Nat → ShaderLoader)
    (hwhite : gfx.GetTextureCache.GetWhiteTexture ≠ none) (calls : List (Call M)) :
    ∀ (self : StandardMaterial M) (trace : List (GLCall M)), Initialised self →
      ∃ last final, run gfx LoadShader calls self trace = some (last, final)
        ∧ Initialised last := by
  induction calls with
  | nil =>
    intro self trace hinit
    exact ⟨self, trace, rfl, hinit⟩
  | cons call rest ih =>
    intro self trace hinit
    obtain ⟨next, issued, hstep, hnext⟩ := step_initialised gfx
      (LoadShader (loadedDefines trace).length) hwhite self call hinit
    obtain ⟨last, final, hrun, hlast⟩ := ih next (trace ++ issued) hnext
    exact ⟨last, final, by simp only [run, hstep, hrun], hlast⟩

end Lemmas

section Claims

variable {M : Type}

/-- C2: for every attribute set and every cache content, when `UpdateShader` runs with
the dirty flag set: (1) if some non-null cache entry agrees with the attributes on every
slot, the active shader afterwards is the first such entry in insertion order and
nothing is compiled; (2) a shader that differs from the attributes on some slot (a
superset or a subset of the requested defines) is never selected by the scan, whatever
the cache holds: it can only become active as the result of a fresh `LoadShader`
request; (3) whenever the call is served from the cache (no `LoadShader` request), the
active shader is a cache entry that agrees with the attributes on every slot. -/
theorem C2_first_exact_match_wins (LoadShader : ShaderLoader) (self : StandardMaterial M)
    (hdirty : self.mAttributesUpdated = true) :
    (∀ (i : Nat) (shader : GLSLShader),
        self.mShaders[i]? = some (some shader) →
        Agrees self.mAttributes shader →
        (∀ j < i, ∀ other, self.mShaders[j]? = some (some other) →
          ¬ Agrees self.mAttributes other) →
        (UpdateShader LoadShader self).1.mActiveShader = some shader
          ∧ (UpdateShader LoadShader self).2 = [])
      ∧ (∀ (other : GLSLShader) (n : EAttribute),
          other.CheckIfIsDefined (AttributeToString n) ≠ self.mAttributes n →
          findShader self.mAttributes self.mShaders ≠ some other
            ∧ ((UpdateShader LoadShader self).1.mActiveShader = some other →
                (UpdateShader LoadShader self).2
                    = [GLCall.LoadShader "StandardMaterial_VS.glsl" "StandardMaterial_PS.glsl"
                        (collectDefines self.mAttributes attributeSlots)]
                  ∧ LoadShader "StandardMaterial_VS.glsl" "StandardMaterial_PS.glsl"
                      (collectDefines self.mAttributes attributeSlots) = some other))
      ∧ ((UpdateShader LoadShader self).2 = [] →
          ∃ shader, (UpdateShader LoadShader self).1.mActiveShader = some shader
            ∧ some shader ∈ self.mShaders
            ∧ Agrees self.mAttributes shader) := by
  refine ⟨?_, ?_, ?_⟩
  · intro i shader hentry hagree hfirst
    have hfind := findShader_first self.mAttributes self.mShaders i shader hentry hagree hfirst
    rw [UpdateShader_hit LoadShader self shader hdirty hfind]
    exact ⟨rfl, rfl⟩
  · intro other n hne
    have hscan : findShader self.mAttributes self.mShaders ≠ some other :=
      fun hsel => hne ((findShader_agrees _ _ _ hsel).1 n)
    refine ⟨hscan, ?_⟩
    intro hactive
    cases hf : findShader self.mAttributes self.mShaders with
    | some found =>
      rw [UpdateShader_hit LoadShader self found hdirty hf] at hactive
      simp only [Option.some.injEq] at hactive
      subst hactive
      exact absurd hf hscan
    | none =>
      rw [UpdateShader_miss LoadShader self hdirty hf] at hactive ⊢
      exact ⟨rfl, hactive⟩
  · intro hcalls
    cases hf : findShader self.mAttributes self.mShaders with
    | some found =>
      rw [UpdateShader_hit LoadShader self found hdirty hf]
      exact ⟨found, rfl, (findShader_agrees _ _ _ hf).2, (findShader_agrees _ _ _ hf).1⟩
    | none =>
      rw [UpdateShader_miss LoadShader self hdirty hf] at hcalls
      simp at hcalls

/-- C2 at a concrete cache holding a null entry, a subset variant (LIGHTING only) and
the exact variant (LIGHTING and TEXTURING), in this order: the exact variant becomes
active, and the subset variant in front of it is not what the scan selects. -/
theorem C2_first_exact_match_wins_witness :
    demoCached.mAttributesUpdated = true
      ∧ demoCached.mShaders[2]? = some (some demoShaderLT)
      ∧ Agrees demoCached.mAttributes demoShaderLT
      ∧ ¬ Agrees demoCached.mAttributes demoShaderL
      ∧ (UpdateShader failingLoader demoCached).1.mActiveShader = some demoShaderLT
      ∧ (UpdateShader failingLoader demoCached).2 = []
      ∧ findShader demoCached.mAttributes demoCached.mShaders ≠ some demoShaderL :=
  have hLT : Agrees demoCached.mAttributes demoShaderLT := by
    intro n
    cases n <;> decide
  have hL : ¬ Agrees demoCached.mAttributes demoShaderL := by
    intro h
    exact absurd (h EAttribute.TEXTURING) (by decide)
  have hmain := (C2_first_exact_match_wins failingLoader demoCached rfl).1 2 demoShaderLT
    rfl hLT
    (by
      intro j hj other hother
      have hj : j = 0 ∨ j = 1 := by omega
      rcases hj with rfl | rfl
      · exact absurd hother (by simp [demoCached])
      · have hother' : some (some demoShaderL) = some (some other) := hother
        simp only [Option.some.injEq] at hother'
        subst hother'
        exact hL)
  ⟨rfl, rfl, hLT, hL, hmain.1, hmain.2,
    ((C2_first_exact_match_wins failingLoader demoCached rfl).2.1 demoShaderL
      EAttribute.TEXTURING (by decide)).1⟩

/-- C3 fails as stated: on a fresh material whose first compilation fails, the cache
after `UpdateShader` differs from the cache before it. -/
theorem C3_failed_entry_is_stored :
    demoFresh.mAttributesUpdated = true
      ∧ findShader demoFresh.mAttributes demoFresh.mShaders = none
      ∧ failingLoader "StandardMaterial_VS.glsl" "StandardMaterial_PS.glsl"
          (collectDefines demoFresh.mAttributes attributeSlots) = none
      ∧ (UpdateShader failingLoader demoFresh).1.mShaders.length = 1
      ∧ demoFresh.mShaders.length = 0
      ∧ (UpdateShader failingLoader demoFresh).1.mShaders ≠ demoFresh.mShaders := by
  refine ⟨rfl, rfl, rfl, rfl, rfl, ?_⟩
  intro h
  have hlen := congrArg List.length h
  revert hlen
  decide

/-- C3 amended: when `UpdateShader` misses the cache and `LoadShader` returns null, the
null result is appended to `mShaders` as its last entry, the earlier entries are kept,
the active shader is null, and a scan of the new cache selects what a scan of the old
cache selects: the null entry is never chosen. -/
theorem C3_failed_load_appends_null (LoadShader : ShaderLoader) (self : StandardMaterial M)
    (hdirty : self.mAttributesUpdated = true)
    (hmiss : findShader self.mAttributes self.mShaders = none)
    (hfail : LoadShader "StandardMaterial_VS.glsl" "StandardMaterial_PS.glsl"
      (collectDefines self.mAttributes attributeSlots) = none) :
    (UpdateShader LoadShader self).1.mShaders = self.mShaders ++ [none]
      ∧ (UpdateShader LoadShader self).1.mActiveShader = none
      ∧ ∀ mAttributes, findShader mAttributes (UpdateShader LoadShader self).1.mShaders
          = findShader mAttributes self.mShaders := by
  have hs : (UpdateShader LoadShader self).1.mShaders = self.mShaders ++ [none] := by
    simp [UpdateShader, hdirty, hmiss, hfail]
  refine ⟨hs, by simp [UpdateShader, hdirty, hmiss, hfail], ?_⟩
  intro mAttributes
  rw [hs, findShader_append_none]

/-- C3 amended, on a fresh material whose first compilation fails. -/
theorem C3_failed_load_appends_null_witness :
    demoFresh.mAttributesUpdated = true
      ∧ findShader demoFresh.mAttributes demoFresh.mShaders = none
      ∧ failingLoader "StandardMaterial_VS.glsl" "StandardMaterial_PS.glsl"
          (collectDefines demoFresh.mAttributes attributeSlots) = none
      ∧ (UpdateShader failingLoader demoFresh).1.mShaders = demoFresh.mShaders ++ [none]
      ∧ (UpdateShader failingLoader demoFresh).1.mActiveShader = none :=
  ⟨rfl, rfl, rfl, (C3_failed_load_appends_null failingLoader demoFresh rfl rfl rfl).1,
    (C3_failed_load_appends_null failingLoader demoFresh rfl rfl rfl).2.1⟩

/-- C7: when `UpdateShader` misses the cache it issues exactly one call, `LoadShader`
with the source pair ("StandardMaterial_VS.glsl", "StandardMaterial_PS.glsl") and the
define list made of the names of the slots whose attribute is `true`, in increasing
slot order; the list has no repetition and holds the name of a slot exactly when the
attribute of that slot is `true`.  With lighting, skinning and texturing on and shadows
off the defines are LIGHTING, SKINNING, TEXTURING. -/
theorem C7_miss_compiles_true_slots (LoadShader : ShaderLoader) (self : StandardMaterial M)
    (hdirty : self.mAttributesUpdated = true)
    (hmiss : findShader self.mAttributes self.mShaders = none) :
    (UpdateShader LoadShader self).2
        = [GLCall.LoadShader "StandardMaterial_VS.glsl" "StandardMaterial_PS.glsl"
            ((attributeSlots.filter (fun n => self.mAttributes n)).map AttributeToString)]
      ∧ ((attributeSlots.filter (fun n => self.mAttributes n)).map AttributeToString).Nodup
      ∧ (∀ n, AttributeToString n
            ∈ (attributeSlots.filter (fun n => self.mAttributes n)).map AttributeToString
          ↔ self.mAttributes n = true)
      ∧ (self.mAttributes EAttribute.LIGHTING = true →
          self.mAttributes EAttribute.SKINNING = true →
          self.mAttributes EAttribute.SHADOWS = false →
          self.mAttributes EAttribute.TEXTURING = true →
          (UpdateShader LoadShader self).2
            = [GLCall.LoadShader "StandardMaterial_VS.glsl" "StandardMaterial_PS.glsl"
                ["LIGHTING", "SKINNING", "TEXTURING"]]) := by
  have hcalls := congrArg Prod.snd (UpdateShader_miss LoadShader self hdirty hmiss)
  simp only at hcalls
  refine ⟨?_, ?_, ?_, ?_⟩
  · rw [hcalls, collectDefines_eq]
  · rw [← collectDefines_eq]
    exact collectDefines_nodup _
  · intro n
    rw [← collectDefines_eq]
    exact mem_collectDefines _ n
  · intro hL hS hSh hT
    rw [hcalls]
    simp [collectDefines, attributeSlots, hL, hS, hSh, hT, AttributeToString]

/-- C7 on a fresh material with skinning switched on. -/
theorem C7_miss_compiles_true_slots_witness :
    (SetAttribute demoFresh EAttribute.SKINNING true).mAttributesUpdated = true
      ∧ findShader (SetAttribute demoFresh EAttribute.SKINNING true).mAttributes
          (SetAttribute demoFresh EAttribute.SKINNING true).mShaders = none
      ∧ (UpdateShader (demoLoader 0) (SetAttribute demoFresh EAttribute.SKINNING true)).2
          = [GLCall.LoadShader "StandardMaterial_VS.glsl" "StandardMaterial_PS.glsl"
              ["LIGHTING", "SKINNING", "TEXTURING"]] :=
  ⟨rfl, rfl,
    (C7_miss_compiles_true_slots (demoLoader 0)
      (SetAttribute demoFresh EAttribute.SKINNING true) rfl rfl).2.2.2 rfl rfl rfl rfl⟩

/-- C1: run any sequence of `Init`, `SetAttribute`, `Activate`, `Render` and
`Deactivate` calls on a freshly constructed material, every `LoadShader` request
succeeding with a shader that reports as defined exactly the defines it was compiled
with.  Then no define list is requested twice, so `LoadShader` is invoked at most once
per attribute combination; a combination that was compiled before is resolved by the
next `UpdateShader` from `mShaders` without a request; and an `Activate` that directly
follows an `Activate` requests nothing. -/
theorem C1_no_duplicate_compilation [Mul M] (gfx : GraphicsManager M)
    (LoadShader : Nat → ShaderLoader) (hexact : ExactLoader LoadShader)
    (uninitAttributes : EAttribute → Bool) (uninitBoneMatrices : Nat → M)
    (calls : List (Call M)) (self : StandardMaterial M) (trace : List (GLCall M))
    (hrun : run gfx LoadShader calls
      (StandardMaterial.construct gfx uninitAttributes uninitBoneMatrices) [] = some (self, trace)) :
    (loadedDefines trace).Nodup
      ∧ (∀ mAttributes : EAttribute → Bool,
          (loadedDefines trace).countP
            (fun defines => decide (defines = collectDefines mAttributes attributeSlots)) ≤ 1)
      ∧ (collectDefines self.mAttributes attributeSlots ∈ loadedDefines trace →
          ∀ loader : ShaderLoader, (UpdateShader (M := M) loader self).2 = []
            ∧ (self.mAttributesUpdated = true →
                ∃ shader, some shader ∈ self.mShaders
                  ∧ (UpdateShader loader self).1.mActiveShader = some shader))
      ∧ (∀ (loader loader' : ShaderLoader) (flags flags' : Nat)
          (first second : StandardMaterial M × List (GLCall M)),
          Activate gfx loader self flags = some first →
          Activate gfx loader' first.1 flags' = some second →
          loadedDefines second.2 = []) := by
  have hinv : CompiledAreCached self trace ∧ (loadedDefines trace).Nodup := by
    refine run_induction gfx LoadShader
      (fun s t => CompiledAreCached s t ∧ (loadedDefines t).Nodup)
      (fun s t c s' cs hP hs => step_cache_inv gfx LoadShader hexact s t c s' cs hP hs)
      calls _ [] self trace ?_ hrun
    constructor
    · intro defines hmem
      simp [loadedDefines] at hmem
    · simp [loadedDefines]
  refine ⟨hinv.2, fun mAttributes => ?_, ?_, ?_⟩
  · have hcount := List.nodup_iff_count_le_one.1 hinv.2
      (collectDefines mAttributes attributeSlots)
    simpa [List.count] using hcount
  · intro hmem loader
    cases hd : self.mAttributesUpdated with
    | false =>
      rw [UpdateShader_skip loader self hd]
      simp
    | true =>
      cases hf : findShader self.mAttributes self.mShaders with
      | none => exact absurd hmem (not_compiled_of_miss self trace hinv.1 hf)
      | some shader =>
        rw [UpdateShader_hit loader self shader hd hf]
        exact ⟨rfl, fun _ => ⟨shader, (findShader_agrees _ _ _ hf).2, rfl⟩⟩
  · intro loader loader' flags flags' first second h1 h2
    rw [Activate_loadedDefines gfx loader' first.1 flags' second h2]
    have hstate := (Activate_some gfx loader self flags first h1).1
    rw [UpdateShader_skip loader' first.1 (by rw [hstate]; exact UpdateShader_clean loader self)]
    rfl

/-- C1 on a concrete run: seven calls with four `Activate`s, skinning toggled on and
off again, give two compilations. -/
theorem C1_no_duplicate_compilation_witness :
    ExactLoader demoLoader
      ∧ ∃ self trace, run demoGfx demoLoader demoCalls demoFresh [] = some (self, trace)
          ∧ loadedDefines trace = [["LIGHTING", "TEXTURING"], ["LIGHTING", "SKINNING", "TEXTURING"]]
          ∧ (loadedDefines trace).Nodup :=
  ⟨fun _ _ _ _ => ⟨_, rfl, fun _ => rfl⟩, _, _, rfl, rfl,
    (C1_no_duplicate_compilation demoGfx demoLoader (fun _ _ _ _ => ⟨_, rfl, fun _ => rfl⟩)
      (fun _ => false) (fun _ => 0) demoCalls _ _ rfl).1⟩

/-- C4: if the compilation triggered by `Activate` fails (`LoadShader` returns null),
then for every `flags` that `Activate` returns without fault having issued the
`LoadShader` request and nothing else, it leaves the active shader null, and every
later sequence of `Activate`, `Render` and `Deactivate` calls (and of `SetAttribute`
calls that write the value a slot already has) returns without fault, leaves the object
as it is and issues no call at all: no vertex-attribute binding, no uniform write, no
draw call and no further `LoadShader` request. -/
theorem C4_failed_compile_is_noop [Mul M] (gfx : GraphicsManager M) (LoadShader : ShaderLoader)
    (self : StandardMaterial M) (flags : Nat)
    (hdirty : self.mAttributesUpdated = true)
    (hmiss : findShader self.mAttributes self.mShaders = none)
    (hfail : LoadShader "StandardMaterial_VS.glsl" "StandardMaterial_PS.glsl"
      (collectDefines self.mAttributes attributeSlots) = none) :
    ∃ failed : StandardMaterial M,
      Activate gfx LoadShader self flags
          = some (failed, [GLCall.LoadShader "StandardMaterial_VS.glsl"
              "StandardMaterial_PS.glsl" (collectDefines self.mAttributes attributeSlots)])
        ∧ failed.mActiveShader = none
        ∧ ∀ (later : Nat → ShaderLoader) (calls : List (Call M)) (trace : List (GLCall M)),
            (∀ call ∈ calls, call.leavesAttributes failed.mAttributes) →
            run gfx later calls failed trace = some (failed, trace) := by
  have hupd := UpdateShader_miss LoadShader self hdirty hmiss
  rw [hfail] at hupd
  refine ⟨(UpdateShader LoadShader self).1, ?_, ?_, ?_⟩
  · unfold Activate
    simp only [hupd]
  · rw [hupd]
  · intro later calls trace hcalls
    exact run_noop gfx later _ (by rw [hupd]) (UpdateShader_clean LoadShader self) calls hcalls
      trace

/-- C4 on a fresh material whose first compilation fails, followed by `Activate`,
`Render`, `Deactivate`, `Activate` under a loader that would succeed. -/
theorem C4_failed_compile_is_noop_witness :
    demoFresh.mAttributesUpdated = true
      ∧ findShader demoFresh.mAttributes demoFresh.mShaders = none
      ∧ failingLoader "StandardMaterial_VS.glsl" "StandardMaterial_PS.glsl"
          (collectDefines demoFresh.mAttributes attributeSlots) = none
      ∧ ∃ failed : StandardMaterial ℤ,
          Activate demoGfx failingLoader demoFresh 3
              = some (failed, [GLCall.LoadShader "StandardMaterial_VS.glsl"
                  "StandardMaterial_PS.glsl" ["LIGHTING", "TEXTURING"]])
            ∧ run demoGfx demoLoader
                [Call.Activate 3, Call.Render demoActor demoPrimitive, Call.Deactivate,
                  Call.Activate 1] failed []
                = some (failed, []) :=
  ⟨rfl, rfl, rfl,
    (C4_failed_compile_is_noop demoGfx failingLoader demoFresh 3 rfl rfl rfl).elim
      fun failed h => ⟨failed, h.1, h.2.2 demoLoader _ []
        (by
          intro call hcall
          simp only [List.mem_cons, List.mem_singleton, List.not_mem_nil, or_false] at hcall
          rcases hcall with h | h | h | h <;> subst h <;> exact True.intro)⟩⟩

/-- C9 fails as stated: after `Activate`, `SetAttribute(SKINNING, true)` a `Render`
issues a draw call while the active shader, compiled without SKINNING, disagrees with
the attribute set on the skinning slot. -/
theorem C9_stale_variant_drawn :
    ExactLoader demoLoader
      ∧ ∃ (self : StandardMaterial ℤ) (trace : List (GLCall ℤ)) (shader : GLSLShader),
          run demoGfx demoLoader
              [Call.Activate 1, Call.SetAttribute EAttribute.SKINNING true] demoFresh []
            = some (self, trace)
          ∧ self.mActiveShader = some shader
          ∧ shader.CheckIfIsDefined (AttributeToString EAttribute.SKINNING) = false
          ∧ self.mAttributes EAttribute.SKINNING = true
          ∧ ¬ Agrees self.mAttributes shader
          ∧ ∃ call ∈ (Render demoGfx self demoActor demoPrimitive).2, call.isDraw = true :=
  ⟨fun _ _ _ _ => ⟨_, rfl, fun _ => rfl⟩, _, _, _, rfl, rfl, rfl, rfl,
    fun h => absurd (h EAttribute.SKINNING) (by decide),
    Render_draws demoGfx _ demoActor demoPrimitive _ rfl⟩

/-- C9 amended: in every state reached from a freshly constructed material by a
sequence of `Init`, `SetAttribute`, `Activate`, `Render` and `Deactivate` calls
(compilations succeeding, the compiled shader reporting exactly its defines), every
call the next `Activate` makes on a shader is made on the active shader and that shader
agrees with the attribute set on every slot; and when the next `Render` issues a draw
call while the dirty flag is clear (no attribute changed since the last `Activate`),
the active shader agrees with the attribute set on every slot. -/
theorem C9_no_stale_variant_when_resolved [Mul M] (gfx : GraphicsManager M)
    (LoadShader : Nat → ShaderLoader) (hexact : ExactLoader LoadShader)
    (uninitAttributes : EAttribute → Bool) (uninitBoneMatrices : Nat → M)
    (calls : List (Call M)) (self : StandardMaterial M) (trace : List (GLCall M))
    (hrun : run gfx LoadShader calls
      (StandardMaterial.construct gfx uninitAttributes uninitBoneMatrices) [] = some (self, trace)) :
    (∀ (flags : Nat) (result : StandardMaterial M × List (GLCall M)),
        Activate gfx (LoadShader (loadedDefines trace).length) self flags = some result →
        ∀ call ∈ result.2, ∀ shader, call.shader? = some shader →
          result.1.mActiveShader = some shader ∧ Agrees result.1.mAttributes shader)
      ∧ (self.mAttributesUpdated = false →
          ∀ (actorInstance : ActorInstance M) (primitive : Primitive),
            (∃ call ∈ (Render gfx self actorInstance primitive).2, call.isDraw = true) →
            ∃ shader, self.mActiveShader = some shader ∧ Agrees self.mAttributes shader) := by
  have hinv : ResolvedWhenClean self :=
    run_induction gfx LoadShader (fun s _ => ResolvedWhenClean s)
      (fun s t c s' cs hP hs => step_resolved gfx _ (hexact _) s c s' cs hP hs)
      calls _ [] self trace (construct_resolved gfx uninitAttributes uninitBoneMatrices) hrun
  constructor
  · intro flags result hact call hcall shader hshader
    obtain ⟨hstate, binds, hcalls, hbinds⟩ := Activate_some gfx _ self flags result hact
    have hin : call ∈ binds := by
      rw [hcalls, List.mem_append] at hcall
      rcases hcall with hcall | hcall
      · have hnil := loadedDefines_eq_nil [call] (by
          intro c hc
          simp only [List.mem_singleton] at hc
          subst hc
          exact isLoadShader_of_shader c shader hshader)
        exfalso
        cases hd : self.mAttributesUpdated with
        | false =>
          rw [UpdateShader_skip _ self hd] at hcall
          simp at hcall
        | true =>
          cases hf : findShader self.mAttributes self.mShaders with
          | some found =>
            rw [UpdateShader_hit _ self found hd hf] at hcall
            simp at hcall
          | none =>
            rw [UpdateShader_miss _ self hd hf] at hcall
            simp only [List.mem_singleton] at hcall
            subst hcall
            simp [GLCall.shader?] at hshader
      · exact hcall
    obtain ⟨active, hactive, hsame⟩ := hbinds call hin
    rw [hshader, Option.some.injEq] at hsame
    subst hsame
    refine ⟨hactive, ?_⟩
    rw [hstate] at hactive ⊢
    exact UpdateShader_resolved _ self (hexact _) hinv shader hactive
  · intro hclean actorInstance primitive hdraw
    cases hsh : self.mActiveShader with
    | none =>
      obtain ⟨call, hcall, _⟩ := hdraw
      simp [Render, hsh] at hcall
    | some shader => exact ⟨shader, rfl, hinv hclean shader hsh⟩

/-- C9 amended, on the run `Init`, `Activate`, `Activate`, skinning on, `Activate`,
skinning off, `Activate`. -/
theorem C9_no_stale_variant_when_resolved_witness :
    ExactLoader demoLoader
      ∧ ∃ (self : StandardMaterial ℤ) (trace : List (GLCall ℤ)),
          run demoGfx demoLoader demoCalls demoFresh [] = some (self, trace)
          ∧ self.mAttributesUpdated = false
          ∧ (∃ call ∈ (Render demoGfx self demoActor demoPrimitive).2, call.isDraw = true)
          ∧ ∃ shader, self.mActiveShader = some shader ∧ Agrees self.mAttributes shader :=
  ⟨fun _ _ _ _ => ⟨_, rfl, fun _ => rfl⟩, _, _, rfl, rfl,
    Render_draws demoGfx _ demoActor demoPrimitive _ rfl,
    (C9_no_stale_variant_when_resolved demoGfx demoLoader
      (fun _ _ _ _ => ⟨_, rfl, fun _ => rfl⟩) (fun _ => false) (fun _ => 0) demoCalls _ _ rfl).2
      rfl demoActor demoPrimitive
      (Render_draws demoGfx _ demoActor demoPrimitive _ rfl)⟩

/-- C6: with the skinning attribute set and an active shader, `Render` writes the
uniform `matBones` once, on the active shader, with a palette of exactly
`numBones = length(mBoneNodeIndices)` entries whose entry `i` is
`invBindPose[bone[i]] * global[bone[i]] * Inverse(global[mNodeIndex])` in this order;
when the three factors are the identity for every bone, every entry is the identity. -/
theorem C6_bone_palette [Monoid M] (gfx : GraphicsManager M) (self : StandardMaterial M)
    (actorInstance : ActorInstance M) (primitive : Primitive) (shader : GLSLShader)
    (hskin : self.mAttributes EAttribute.SKINNING = true)
    (hactive : self.mActiveShader = some shader) :
    ∃ palette : List M,
      uniformWrites "matBones" (Render gfx self actorInstance primitive).2
          = [(shader, UniformValue.matrixArray palette)]
        ∧ palette.length = primitive.mBoneNodeIndices.length
        ∧ (∀ (i nodeNr : Nat), primitive.mBoneNodeIndices[i]? = some nodeNr →
            palette[i]? = some (actorInstance.invBindPoseMatrices nodeNr
              * actorInstance.globalMatrices nodeNr
              * gfx.math.Inverse (actorInstance.globalMatrices primitive.mNodeIndex)))
        ∧ ((∀ nodeNr ∈ primitive.mBoneNodeIndices,
              actorInstance.invBindPoseMatrices nodeNr = 1
                ∧ actorInstance.globalMatrices nodeNr = 1) →
            gfx.math.Inverse (actorInstance.globalMatrices primitive.mNodeIndex) = 1 →
            ∀ entry ∈ palette, entry = 1) := by
  refine ⟨primitive.mBoneNodeIndices.map (fun nodeNr =>
    actorInstance.invBindPoseMatrices nodeNr * actorInstance.globalMatrices nodeNr
      * gfx.math.Inverse (actorInstance.globalMatrices primitive.mNodeIndex)), ?_, ?_, ?_, ?_⟩
  · simp [Render, hactive, hskin, uniformWrites, arrayPrefix_skinLoop]
  · simp
  · intro i nodeNr hi
    simp [hi]
  · intro hid hinv entry hentry
    simp only [List.mem_map] at hentry
    obtain ⟨nodeNr, hmem, rfl⟩ := hentry
    rw [(hid nodeNr hmem).1, (hid nodeNr hmem).2, hinv]
    simp

/-- C6 on a skinned material and a primitive with three bones, all matrices one. -/
theorem C6_bone_palette_witness :
    demoSkinned.mAttributes EAttribute.SKINNING = true
      ∧ (∃ shader, demoSkinned.mActiveShader = some shader)
      ∧ ∃ palette : List ℤ,
          (uniformWrites "matBones" (Render demoGfx demoSkinned demoActor demoPrimitive).2).map
              Prod.snd = [UniformValue.matrixArray palette]
            ∧ palette.length = 3
            ∧ ∀ entry ∈ palette, entry = 1 :=
  ⟨rfl, ⟨_, rfl⟩,
    (C6_bone_palette demoGfx demoSkinned demoActor demoPrimitive _ rfl rfl).elim
      fun palette h => ⟨palette, by rw [h.1]; rfl, h.2.1,
        h.2.2.2 (fun _ _ => ⟨rfl, rfl⟩) rfl⟩⟩

/-- C8: `Init` on a freshly constructed material returns `true` and, the two default
textures being non-null, leaves the three texture bindings non-null.  For an asset of
the standard family the diffuse map is the load result of the last DIFFUSE layer, or
the white texture if that load returned null or there is no such layer; the specular
map likewise for SHINESTRENGTH layers; the normal map is the load result of the last
BUMP or NORMALMAP layer, or the default normal texture.  For an asset of another
family the three bindings keep the defaults of the constructor. -/
theorem C8_Init_binds_textures (gfx : GraphicsManager M) (LoadTexture : TextureLoader)
    (uninitAttributes : EAttribute → Bool) (uninitBoneMatrices : Nat → M)
    (material : EMotionFX.Material)
    (hwhite : gfx.GetTextureCache.GetWhiteTexture ≠ none)
    (hnormal : gfx.GetTextureCache.GetDefaultNormalTexture ≠ none) :
    (Init gfx LoadTexture (StandardMaterial.construct gfx uninitAttributes uninitBoneMatrices)
        material).1 = true
      ∧ (Init gfx LoadTexture (StandardMaterial.construct gfx uninitAttributes uninitBoneMatrices)
          material).2.mDiffuseMap ≠ none
      ∧ (Init gfx LoadTexture (StandardMaterial.construct gfx uninitAttributes uninitBoneMatrices)
          material).2.mSpecularMap ≠ none
      ∧ (Init gfx LoadTexture (StandardMaterial.construct gfx uninitAttributes uninitBoneMatrices)
          material).2.mNormalMap ≠ none
      ∧ (∀ std, material = EMotionFX.Material.standard std →
          BoundFromLayers (fun kind => kind = EMotionFX.LayerType.LAYERTYPE_DIFFUSE)
              gfx.GetTextureCache.GetWhiteTexture LoadTexture std.layers
              (Init gfx LoadTexture
                (StandardMaterial.construct gfx uninitAttributes uninitBoneMatrices)
                material).2.mDiffuseMap
            ∧ BoundFromLayers (fun kind => kind = EMotionFX.LayerType.LAYERTYPE_SHINESTRENGTH)
              gfx.GetTextureCache.GetWhiteTexture LoadTexture std.layers
              (Init gfx LoadTexture
                (StandardMaterial.construct gfx uninitAttributes uninitBoneMatrices)
                material).2.mSpecularMap
            ∧ BoundFromLayers
              (fun kind => kind = EMotionFX.LayerType.LAYERTYPE_BUMP
                ∨ kind = EMotionFX.LayerType.LAYERTYPE_NORMALMAP)
              gfx.GetTextureCache.GetDefaultNormalTexture LoadTexture std.layers
              (Init gfx LoadTexture
                (StandardMaterial.construct gfx uninitAttributes uninitBoneMatrices)
                material).2.mNormalMap)
      ∧ (∀ typeId, material = EMotionFX.Material.other typeId →
          (Init gfx LoadTexture
              (StandardMaterial.construct gfx uninitAttributes uninitBoneMatrices)
              material).2.mDiffuseMap = gfx.GetTextureCache.GetWhiteTexture
            ∧ (Init gfx LoadTexture
              (StandardMaterial.construct gfx uninitAttributes uninitBoneMatrices)
              material).2.mSpecularMap = gfx.GetTextureCache.GetWhiteTexture
            ∧ (Init gfx LoadTexture
              (StandardMaterial.construct gfx uninitAttributes uninitBoneMatrices)
              material).2.mNormalMap = gfx.GetTextureCache.GetDefaultNormalTexture) := by
  obtain ⟨_, _, _, cD, cS, cN⟩ := construct_fields gfx uninitAttributes uninitBoneMatrices
  have hnn := Init_nonnull gfx LoadTexture hwhite hnormal
    (StandardMaterial.construct gfx uninitAttributes uninitBoneMatrices) material
    ⟨by rw [cD]; exact hwhite, by rw [cS]; exact hwhite, by rw [cN]; exact hnormal⟩
  refine ⟨?_, hnn.1, hnn.2.1, hnn.2.2, ?_, ?_⟩
  · cases material <;> rfl
  · intro std hstd
    subst hstd
    simp only [Init]
    have hD := initLayers_bound gfx LoadTexture (fun s => s.mDiffuseMap)
      (fun kind => kind = EMotionFX.LayerType.LAYERTYPE_DIFFUSE)
      gfx.GetTextureCache.GetWhiteTexture
      (fun s i l => (initLayer_diffuse gfx LoadTexture s i l).1)
      (fun s i l => (initLayer_diffuse gfx LoadTexture s i l).2) std.layers 0
      { StandardMaterial.construct gfx uninitAttributes uninitBoneMatrices with
        mMaterial := some (EMotionFX.Material.standard std) }
    have hS := initLayers_bound gfx LoadTexture (fun s => s.mSpecularMap)
      (fun kind => kind = EMotionFX.LayerType.LAYERTYPE_SHINESTRENGTH)
      gfx.GetTextureCache.GetWhiteTexture
      (fun s i l => (initLayer_specular gfx LoadTexture s i l).1)
      (fun s i l => (initLayer_specular gfx LoadTexture s i l).2) std.layers 0
      { StandardMaterial.construct gfx uninitAttributes uninitBoneMatrices with
        mMaterial := some (EMotionFX.Material.standard std) }
    have hN := initLayers_bound gfx LoadTexture (fun s => s.mNormalMap)
      (fun kind => kind = EMotionFX.LayerType.LAYERTYPE_BUMP
        ∨ kind = EMotionFX.LayerType.LAYERTYPE_NORMALMAP)
      gfx.GetTextureCache.GetDefaultNormalTexture
      (fun s i l => (initLayer_normal gfx LoadTexture s i l).1)
      (fun s i l => (initLayer_normal gfx LoadTexture s i l).2) std.layers 0
      { StandardMaterial.construct gfx uninitAttributes uninitBoneMatrices with
        mMaterial := some (EMotionFX.Material.standard std) }
    simp only [Nat.zero_add] at hD hS hN
    exact ⟨⟨fun h => (hD.1 h).trans cD, hD.2⟩, ⟨fun h => (hS.1 h).trans cS, hS.2⟩,
      ⟨fun h => (hN.1 h).trans cN, hN.2⟩⟩
  · intro typeId htype
    subst htype
    simp only [Init]
    exact ⟨cD, cS, cN⟩

/-- C8 on an asset with one diffuse layer whose load fails: the diffuse map is the
white texture, the normal map the default normal texture. -/
theorem C8_Init_binds_textures_witness :
    demoGfx.GetTextureCache.GetWhiteTexture ≠ none
      ∧ demoGfx.GetTextureCache.GetDefaultNormalTexture ≠ none
      ∧ (Init demoGfx demoNoTextures demoFresh demoAsset).1 = true
      ∧ (Init demoGfx demoNoTextures demoFresh demoAsset).2.mDiffuseMap ≠ none
      ∧ (Init demoGfx demoNoTextures demoFresh demoAsset).2.mDiffuseMap = some ⟨1⟩
      ∧ (Init demoGfx demoNoTextures demoFresh demoAsset).2.mNormalMap = some ⟨2⟩ :=
  ⟨by decide, by decide,
    (C8_Init_binds_textures demoGfx demoNoTextures (fun _ => false) (fun _ => 0) demoAsset
      (by decide) (by decide)).1,
    (C8_Init_binds_textures demoGfx demoNoTextures (fun _ => false) (fun _ => 0) demoAsset
      (by decide) (by decide)).2.1,
    rfl, rfl⟩

/-- C10: construct a material with a non-null white texture, initialise it with `Init`
and run any sequence of calls.  The run returns without fault, and in the state it
reaches every `Activate` returns without fault: `stdMaterial->GetDiffuse()` is never
reached with a null `stdMaterial` (nor `mMaterial->GetType()` with a null `mMaterial`).
When the `LOCAL` flag is set and there is an active shader, `diffuseColor` is written
once, on the active shader, and its value is the diffuse colour of the asset exactly
when the diffuse map is the fallback white texture and the asset is of the standard
family, and opaque white (1,1,1,1) in every other case. -/
theorem C10_diffuse_color_policy [Mul M] (gfx : GraphicsManager M)
    (LoadTexture : TextureLoader) (LoadShader : Nat → ShaderLoader)
    (uninitAttributes : EAttribute → Bool) (uninitBoneMatrices : Nat → M)
    (material : EMotionFX.Material) (calls : List (Call M))
    (hwhite : gfx.GetTextureCache.GetWhiteTexture ≠ none) :
    ∃ (self : StandardMaterial M) (trace : List (GLCall M)),
      run gfx LoadShader calls
          (Init gfx LoadTexture
            (StandardMaterial.construct gfx uninitAttributes uninitBoneMatrices) material).2 []
        = some (self, trace)
      ∧ ∀ (loader : ShaderLoader) (flags : Nat),
          ∃ result, Activate gfx loader self flags = some result
            ∧ (flags &&& LOCAL ≠ 0 → ∀ shader, result.1.mActiveShader = some shader →
                uniformWrites "diffuseColor" result.2
                  = [(shader, UniformValue.color (diffuseColorPolicy gfx self))]) := by
  have hstart : Initialised (Init gfx LoadTexture
      (StandardMaterial.construct gfx uninitAttributes uninitBoneMatrices) material).2 := by
    apply Init_initialised gfx LoadTexture hwhite
    rw [(construct_fields gfx uninitAttributes uninitBoneMatrices).2.2.2.1]
    exact hwhite
  obtain ⟨self, trace, hrun, hinit⟩ := run_initialised gfx LoadShader hwhite calls _ [] hstart
  exact ⟨self, trace, hrun, fun loader flags =>
    Activate_initialised gfx loader self flags hinit⟩

/-- C10 on a standard asset whose diffuse texture fails to load: the local phase
writes the diffuse colour of the asset. -/
theorem C10_diffuse_color_policy_witness :
    demoGfx.GetTextureCache.GetWhiteTexture ≠ none
      ∧ ∃ (self : StandardMaterial ℤ) (trace : List (GLCall ℤ)),
          run demoGfx demoLoader [Call.SetAttribute EAttribute.SHADOWS true]
              (Init demoGfx demoNoTextures demoFresh demoAsset).2 [] = some (self, trace)
            ∧ ∃ result, Activate demoGfx (demoLoader 0) self 2 = some result
                ∧ (uniformWrites "diffuseColor" result.2).map Prod.snd
                    = [UniformValue.color ⟨1 / 2, 1 / 4, 0, 1⟩] :=
  ⟨by decide,
    (C10_diffuse_color_policy demoGfx demoNoTextures demoLoader (fun _ => false) (fun _ => 0)
      demoAsset [Call.SetAttribute EAttribute.SHADOWS true] (by decide)).elim
      fun self h => h.elim fun trace h =>
        ⟨self, trace, h.1, (h.2 (demoLoader 0) 2).elim fun result hr =>
          ⟨result, hr.1, by
            have hself : self = SetAttribute (Init demoGfx demoNoTextures demoFresh demoAsset).2
                EAttribute.SHADOWS true := by
              have := h.1
              simp only [run, step, List.append_nil, Option.some.injEq, Prod.mk.injEq] at this
              exact this.1.symm
            subst hself
            have hres : result = ((UpdateShader (demoLoader 0)
                (SetAttribute (Init demoGfx demoNoTextures demoFresh demoAsset).2
                  EAttribute.SHADOWS true)).1, result.2) := by
              rw [← (Activate_some _ _ _ _ _ hr.1).1]
            rw [hr.2 (by decide) ⟨0, fun name => decide (name ∈ ["LIGHTING", "SHADOWS",
              "TEXTURING"])⟩ (by rw [hres]; rfl)]
            rfl⟩⟩⟩

end Claims

end RenderGL
